import Mathlib

/-
Verification development for the synthetic medical data generator
(cli/patient_generator.py and cli/template_engine.py).

Modelling conventions.

Randomness: the program owns two seeded generators (random.Random and
numpy.random.RandomState).  Both are deterministic functions of their seed;
we model each as an abstract pre-sampled stream of natural numbers
(RState) from which every primitive (random, randint, choice, sample,
normal, lognormal, ...) deterministically consumes elements.  Fixing the
seed corresponds to fixing the stream.  The two genuinely external effect
sources of the program, uuid.uuid4() and datetime.now(), do not read the
seeded generators; they are modelled as separate explicit inputs
(a uuid string supply and a Clock of pre-formatted date strings).

Numbers: Python floats are modelled as exact rationals.  The transcendental
helpers (np.log, the log-normal sampler) are replaced by computable
abstract stand-ins; no claim below depends on their numeric values, only on
which parameters flow into them.  Python round() is round-half-to-even,
modelled exactly on rationals.

Python dicts are modelled as association lists in insertion order;
assignment to an existing key overwrites in place (updSet below), which is
Python's dict semantics.
-/

set_option maxRecDepth 4096

namespace MedGen

/-- Python values as they appear in templates, value maps and documents. -/
inductive Val where
  | s (str : String)
  | i (int : Int)
  | f (rat : Rat)
  | b (bool : Bool)
  | null
  | list (xs : List Val)
  | dict (xs : List (String × Val))

/-- Dictionary lookup: first binding of the key (Python dicts have unique keys). -/
def alook (m : List (String × Val)) (k : String) : Option Val :=
  match m with
  | [] => none
  | (k0, v0) :: rest => if k0 = k then some v0 else alook rest k

/-- Python dict assignment d[k] = v: overwrite the first existing binding in
place, else append at the end. -/
def updSet (m : List (String × Val)) (k : String) (v : Val) : List (String × Val) :=
  match m with
  | [] => [(k, v)]
  | (k0, v0) :: rest => if k0 = k then (k0, v) :: rest else (k0, v0) :: updSet rest k v

/-- Python dict.update(other): fold assignments of the other map in order. -/
def updMerge (m other : List (String × Val)) : List (String × Val) :=
  other.foldl (fun acc kv => updSet acc kv.1 kv.2) m

/-- Key access on a Val that is expected to be a dict (d.get(k)). -/
def Val.get (v : Val) (k : String) : Option Val :=
  match v with
  | .dict m => alook m k
  | _ => none

/-- d.get(k, default) for dict-valued defaults. -/
def Val.getD (v : Val) (k : String) (d : Val) : Val := (v.get k).getD d

/-- Numeric reading of a value (int, float and bool count as numbers,
mirroring isinstance(x, (int, float)) under which True/False are 1/0). -/
def valAsRat : Val → Option Rat
  | .i z => some (z : Rat)
  | .f q => some q
  | .b bv => some (if bv then 1 else 0)
  | _ => none

/-- A value is an int in Python's sense (isinstance(x, int), bools included). -/
def valIsInt : Val → Bool
  | .i _ => true
  | .b _ => true
  | _ => false

/-- A string reading of a value when it is a string. -/
def valAsStr : Val → Option String
  | .s str => some str
  | _ => none

/-- Python truthiness of a modelled value. -/
def pyTruthy : Val → Bool
  | .s str => str ≠ ""
  | .i z => z ≠ 0
  | .f q => q ≠ 0
  | .b bv => bv
  | .null => false
  | .list xs => !xs.isEmpty
  | .dict m => !m.isEmpty

/-- The abstract pre-sampled randomness stream: an infinite supply of
naturals together with a cursor.  Every randomness primitive consumes one
element.  A seeded PRNG run corresponds to one fixed stream. -/
structure RState where
  stream : Nat → Nat
  idx : Nat

/-- Consume one stream element. -/
def RState.next (st : RState) : Nat × RState :=
  (st.stream st.idx, ⟨st.stream, st.idx + 1⟩)

/-- random.random(): a rational in the half-open unit interval. -/
def randFloat (st : RState) : Rat × RState :=
  let p := st.next
  (((p.1 % 1000000 : Nat) : Rat) / 1000000, p.2)

/-- random.randint(a, b): inclusive on both ends (callers guarantee a ≤ b). -/
def randIntAB (a b : Int) (st : RState) : Int × RState :=
  let p := st.next
  (a + ((p.1 : Int) % (b - a + 1)), p.2)

/-- random.choice(xs) with an explicit default for the (never exercised on
the code paths we model) empty-list case, in which Python raises. -/
def choiceD (d : String) (xs : List String) (st : RState) : String × RState :=
  let p := st.next
  (xs.getD (p.1 % xs.length) d, p.2)

/-- random.sample(xs, k): k distinct positions, drawn without replacement;
each draw consumes one stream element. -/
def sampleK (xs : List String) (k : Nat) (st : RState) : List String × RState :=
  match k with
  | 0 => ([], st)
  | k' + 1 =>
    if xs.isEmpty then ([], st)
    else
      let p := st.next
      let j := p.1 % xs.length
      let picked := xs.getD j ""
      let rest := xs.take j ++ xs.drop (j + 1)
      let q := sampleK rest k' p.2
      (picked :: q.1, q.2)

/-- A standard-normal-like abstract deviate taken from the stream. -/
def zDraw (st : RState) : Rat × RState :=
  let p := st.next
  ((((p.1 % 2000001 : Nat) : Rat) - 1000000) / 100000, p.2)

/-- numpy normal(mean, std), modelled as mean + std * z with z from the stream. -/
def normalDraw (mean std : Rat) (st : RState) : Rat × RState :=
  let p := zDraw st
  (mean + std * p.1, p.2)

/-- Computable positive stand-in for the exponential, used only to keep the
log-normal draw a function of its parameters. -/
def expLike (x : Rat) : Rat :=
  if 0 ≤ x then 1 + x + x * x / 2 else 1 / (1 - x + x * x / 2)

/-- Computable stand-in for np.log; no claim depends on its values. -/
def logLike (q : Rat) : Rat := q - 1

/-- numpy lognormal(mu, sigma), modelled as expLike (mu + sigma * z). -/
def lognormalDraw (mu sigma : Rat) (st : RState) : Rat × RState :=
  let p := zDraw st
  (expLike (mu + sigma * p.1), p.2)

/-- random.uniform(a, b) restricted to one-decimal outputs (the program
formats such draws with one decimal digit). -/
def uniform1 (a b : Rat) (st : RState) : Rat × RState :=
  let p := st.next
  let steps := (((b - a) * 10).floor.toNat) + 1
  (a + ((p.1 % steps : Nat) : Rat) / 10, p.2)

/-- random.choices(xs, k=...) or weighted: k draws with replacement; the
weight vector biases the distribution only, so selection is modelled as a
plain deterministic stream function. -/
def choicesK (xs : List String) (k : Nat) (st : RState) : List String × RState :=
  match k with
  | 0 => ([], st)
  | k' + 1 =>
    let p := choiceD "" xs st
    let q := choicesK xs k' p.2
    (p.1 :: q.1, q.2)

/-- Patient dataclass from template_engine.py. -/
structure Patient where
  id : String
  gender : String
  age : Int
  conditions : List String
  medications : List String
  deriving DecidableEq, Repr

/-- ValidationResult dataclass from template_engine.py. -/
structure ValidationResult where
  is_valid : Bool
  errors : List String
  warnings : List String
  critical_issues : List String
  deriving DecidableEq, Repr

/-- Static reference data for one known condition
(PatientGenerator.conditions_data entries). -/
structure CondData where
  prevalence : Rat
  age_weights : List ((Int × Int) × Rat)
  gender_weights : List (String × Rat)
  related_conditions : List String
  common_medications : List String

/-- conditions_data entry for diabetes. -/
def dDiabetes : CondData :=
  { prevalence := 11/100
  , age_weights := [((18, 30), 3/10), ((31, 50), 1), ((51, 70), 5/2), ((71, 100), 3)]
  , gender_weights := [("male", 11/10), ("female", 9/10)]
  , related_conditions := ["hypertension", "heart_disease", "kidney_disease"]
  , common_medications := ["metformin", "insulin", "glipizide", "empagliflozin"] }

/-- conditions_data entry for hypertension. -/
def dHypertension : CondData :=
  { prevalence := 45/100
  , age_weights := [((18, 30), 1/10), ((31, 50), 8/10), ((51, 70), 2), ((71, 100), 7/2)]
  , gender_weights := [("male", 12/10), ("female", 8/10)]
  , related_conditions := ["diabetes", "heart_disease", "stroke"]
  , common_medications := ["lisinopril", "amlodipine", "hydrochlorothiazide", "metoprolol"] }

/-- conditions_data entry for asthma. -/
def dAsthma : CondData :=
  { prevalence := 8/100
  , age_weights := [((18, 30), 15/10), ((31, 50), 1), ((51, 70), 8/10), ((71, 100), 6/10)]
  , gender_weights := [("male", 8/10), ("female", 12/10)]
  , related_conditions := ["copd", "allergies"]
  , common_medications := ["albuterol", "fluticasone", "montelukast", "budesonide"] }

/-- conditions_data entry for copd. -/
def dCopd : CondData :=
  { prevalence := 6/100
  , age_weights := [((18, 30), 1/10), ((31, 50), 3/10), ((51, 70), 15/10), ((71, 100), 3)]
  , gender_weights := [("male", 11/10), ("female", 9/10)]
  , related_conditions := ["asthma", "heart_disease"]
  , common_medications := ["tiotropium", "salmeterol", "prednisone", "oxygen"] }

/-- conditions_data entry for heart_disease. -/
def dHeartDisease : CondData :=
  { prevalence := 65/1000
  , age_weights := [((18, 30), 1/10), ((31, 50), 5/10), ((51, 70), 2), ((71, 100), 4)]
  , gender_weights := [("male", 14/10), ("female", 6/10)]
  , related_conditions := ["diabetes", "hypertension", "stroke"]
  , common_medications := ["atorvastatin", "clopidogrel", "metoprolol", "aspirin"] }

/-- conditions_data entry for obesity. -/
def dObesity : CondData :=
  { prevalence := 36/100
  , age_weights := [((18, 30), 8/10), ((31, 50), 12/10), ((51, 70), 13/10), ((71, 100), 1)]
  , gender_weights := [("male", 9/10), ("female", 11/10)]
  , related_conditions := ["diabetes", "hypertension", "heart_disease"]
  , common_medications := ["orlistat", "phentermine", "liraglutide"] }

/-- conditions_data entry for colon_cancer. -/
def dColonCancer : CondData :=
  { prevalence := 5/100
  , age_weights := [((18, 30), 1/10), ((31, 50), 5/10), ((51, 70), 2), ((71, 100), 7/2)]
  , gender_weights := [("male", 11/10), ("female", 9/10)]
  , related_conditions := ["obesity", "diabetes"]
  , common_medications := ["5-fluorouracil", "oxaliplatin", "irinotecan", "bevacizumab", "cetuximab"] }

/-- PatientGenerator.conditions_data, in dict insertion order. -/
def conditionsData : List (String × CondData) :=
  [ ("diabetes", dDiabetes)
  , ("hypertension", dHypertension)
  , ("asthma", dAsthma)
  , ("copd", dCopd)
  , ("heart_disease", dHeartDisease)
  , ("obesity", dObesity)
  , ("colon_cancer", dColonCancer) ]

/-- Lookup in an association list with string keys (dict access). -/
def dlook {α : Type} (m : List (String × α)) (k : String) : Option α :=
  match m with
  | [] => none
  | (k0, v0) :: rest => if k0 = k then some v0 else dlook rest k

/-- PatientGenerator.medication_combinations, in dict insertion order. -/
def medicationCombinations : List (List String × List String) :=
  [ (["diabetes", "hypertension"], ["metformin", "lisinopril"])
  , (["diabetes", "heart_disease"], ["metformin", "atorvastatin", "aspirin"])
  , (["hypertension", "heart_disease"], ["lisinopril", "metoprolol", "atorvastatin"])
  , (["asthma", "copd"], ["albuterol", "tiotropium", "fluticasone"]) ]

/-- PatientGenerator._generate_realistic_age: weighted four-bucket age draw
with a defensive uniform fallback. -/
def generateRealisticAge (st : RState) : Int × RState :=
  let ageRanges : List (Int × Int × Rat) :=
    [(18, 30, 15/100), (31, 50, 25/100), (51, 70, 40/100), (71, 90, 20/100)]
  let p := randFloat st
  let randVal := p.1
  let rec walk (ranges : List (Int × Int × Rat)) (cumulative : Rat) (st1 : RState) :
      Int × RState :=
    match ranges with
    | [] => randIntAB 18 85 st1
    | (lo, hi, w) :: rest =>
      let c := cumulative + w
      if randVal ≤ c then randIntAB lo hi st1 else walk rest c st1
  walk ageRanges 0 p.2

/-- Age weight resolution inside PatientGenerator._generate_conditions:
first matching bracket wins, default 1.0. -/
def ageWeightOf (ws : List ((Int × Int) × Rat)) (age : Int) : Rat :=
  match ws with
  | [] => 1
  | ((lo, hi), w) :: rest => if lo ≤ age ∧ age ≤ hi then w else ageWeightOf rest age

/-- Comorbidity interaction weight: doubled once per already-selected related
condition, compounding. -/
def interactionWeight (selected : List String) (related : List String) : Rat :=
  selected.foldl (fun acc c => if c ∈ related then acc * 2 else acc) 1

/-- One step of the target-disease pass: known targets are appended with
probability 0.8, unknown ones are skipped without consuming a draw. -/
def targetStep (acc : List String × RState) (disease : String) :
    List String × RState :=
  match dlook conditionsData disease with
  | none => acc
  | some _ =>
    let p := randFloat acc.2
    ((if p.1 < 8/10 then acc.1 ++ [disease] else acc.1), p.2)

/-- One step of the prevalence pass: already-present conditions are skipped
without a draw, otherwise the demographically weighted capped probability is
tested against one draw. -/
def condStep (age : Int) (gender : String) (acc : List String × RState)
    (entry : String × CondData) : List String × RState :=
  let condition := entry.1
  let data := entry.2
  if condition ∈ acc.1 then acc
  else
    let ageWeight := ageWeightOf data.age_weights age
    let genderWeight := (dlook data.gender_weights gender).getD 1
    let inter := interactionWeight acc.1 data.related_conditions
    let finalProbability :=
      min (data.prevalence * ageWeight * genderWeight * inter) (9/10)
    let p := randFloat acc.2
    ((if p.1 < finalProbability then acc.1 ++ [condition] else acc.1), p.2)

/-- The probabilistic phase of PatientGenerator._generate_conditions: the
0.8-probability target-disease pass followed by the prevalence-weighted pass
over every known condition. -/
def generateConditionsProb (age : Int) (gender : String) (targets : List String)
    (st : RState) : List String × RState :=
  -- target pass (only runs when the target list is non-empty, i.e. truthy)
  let afterTargets :=
    if targets.isEmpty then ([], st) else targets.foldl targetStep ([], st)
  -- prevalence pass over conditions_data in insertion order
  conditionsData.foldl (condStep age gender) afterTargets

/-- PatientGenerator._generate_conditions: probabilistic phase, then the
force-add step (which fires only when the condition list is empty), then the
age-gated no-condition fallback. -/
def generateConditions (age : Int) (gender : String) (targets : List String)
    (st : RState) : List String × RState :=
  let c0 := generateConditionsProb age gender targets st
  -- if target_diseases and not conditions: append random.choice(target_diseases)
  let c1 :=
    if ¬targets.isEmpty ∧ c0.1.isEmpty then
      let p := choiceD "" targets c0.2
      (c0.1 ++ [p.1], p.2)
    else c0
  -- if not conditions: age-gated fallback with Python short-circuit draws
  if c1.1.isEmpty then
    if age > 50 then
      let p := randFloat c1.2
      if p.1 < 6/10 then (c1.1 ++ ["hypertension"], p.2)
      else if age > 65 then
        let q := randFloat p.2
        if q.1 < 4/10 then (c1.1 ++ ["diabetes"], q.2) else (c1.1, q.2)
      else (c1.1, p.2)
    else if age > 65 then
      let q := randFloat c1.2
      if q.1 < 4/10 then (c1.1 ++ ["diabetes"], q.2) else (c1.1, q.2)
    else c1
  else c1

/-- Seen-set recursion behind the first-occurrence deduplication loop. -/
def pyDedupAux (seen : List String) : List String → List String
  | [] => []
  | x :: rest =>
    if x ∈ seen then pyDedupAux seen rest else x :: pyDedupAux (x :: seen) rest

/-- Order-preserving first-occurrence deduplication (the seen-set loop at the
end of PatientGenerator._generate_medications). -/
def pyDedup (xs : List String) : List String := pyDedupAux [] xs

/-- The per-condition 1-2 medication sampling pass of
PatientGenerator._generate_medications. -/
def singleConditionMeds (conditions : List String) (st : RState) :
    List String × RState :=
  conditions.foldl
    (fun (acc : List String × RState) condition =>
      match dlook conditionsData condition with
      | none => acc
      | some data =>
        let conditionMeds := data.common_medications
        let p := randIntAB 1 (min 2 (conditionMeds.length : Int)) acc.2
        let q := sampleK conditionMeds p.1.toNat p.2
        (acc.1 ++ q.1, q.2))
    ([], st)

/-- The combination-therapy replacement pass: for every known combination
whose condition set is contained in the patient's conditions, strip its
medications from the list and append the canonical combo list. -/
def applyCombinations (conditions : List String) (meds : List String) : List String :=
  medicationCombinations.foldl
    (fun acc combo =>
      if combo.1.all (fun c => c ∈ conditions) then
        acc.filter (fun m => m ∉ combo.2) ++ combo.2
      else acc)
    meds

/-- PatientGenerator._generate_medications. -/
def generateMedications (conditions : List String) (st : RState) :
    List String × RState :=
  let p := singleConditionMeds conditions st
  (pyDedup (applyCombinations conditions p.1), p.2)

/-- PatientGenerator.generate_single_patient.  The uuid argument models the
unseeded uuid.uuid4() call: the patient id is P plus the first eight
characters of the uuid, uppercased; it does not read the seeded stream. -/
def generateSinglePatient (uuid : String) (st : RState) : Patient × RState :=
  let patientId := "P" ++ String.mk ((uuid.data.take 8).map Char.toUpper)
  let g := choiceD "" ["male", "female"] st
  let a := generateRealisticAge g.2
  let c := generateConditions a.1 g.1 [] a.2
  let m := generateMedications c.1 c.2
  ({ id := patientId, gender := g.1, age := a.1, conditions := c.1
   , medications := m.1 }, m.2)

/-- generate_single_patient with a target-disease list supplied. -/
def generateSinglePatientT (targets : List String) (uuid : String) (st : RState) :
    Patient × RState :=
  let patientId := "P" ++ String.mk ((uuid.data.take 8).map Char.toUpper)
  let g := choiceD "" ["male", "female"] st
  let a := generateRealisticAge g.2
  let c := generateConditions a.1 g.1 targets a.2
  let m := generateMedications c.1 c.2
  ({ id := patientId, gender := g.1, age := a.1, conditions := c.1
   , medications := m.1 }, m.2)

/-- The patient loop of PatientGenerator.generate_patients: count sequential
patients, each consuming one uuid from the external uuid supply and
advancing the one seeded stream. -/
def generatePatientsGo (uuids : Nat → String) : Nat → Nat → RState →
    List Patient × RState
  | 0, _, st1 => ([], st1)
  | k + 1, i, st1 =>
    let p := generateSinglePatient (uuids i) st1
    let rest := generatePatientsGo uuids k (i + 1) p.2
    (p.1 :: rest.1, rest.2)

/-- PatientGenerator.generate_patients without targets. -/
def generatePatients (count : Nat) (uuids : Nat → String) (st : RState) :
    List Patient × RState :=
  generatePatientsGo uuids count 0 st

/-- Python round(x): round half to even, on exact rationals. -/
def pyRound (q : Rat) : Int :=
  let f := q.floor
  let frac := q - (f : Rat)
  if frac > 1/2 then f + 1
  else if frac < 1/2 then f
  else if f % 2 = 0 then f else f + 1

/-- Python round(x, 2): round half to even at two decimal places. -/
def pyRound2 (q : Rat) : Rat := ((pyRound (q * 100) : Int) : Rat) / 100

/-- repr of a Python float whose value is an exact two-decimal rational
(every float the program stringifies is produced by round(x, 2) or is an
integer-valued float). -/
def floatStr (q : Rat) : String :=
  let sign := if q < 0 then "-" else ""
  let a := |q|
  let ip := a.floor
  let f2 := ((a - (ip : Rat)) * 100).floor.toNat
  let d1 := f2 / 10
  let d2 := f2 % 10
  sign ++ toString ip ++ "." ++
    (if d2 = 0 then toString d1 else toString d1 ++ toString d2)

/-- f-string formatting with one decimal digit, for one-decimal rationals. -/
def fmt1 (q : Rat) : String :=
  let ip := q.floor
  let d := ((q - (ip : Rat)) * 10).floor.toNat
  toString ip ++ "." ++ toString d

/-- f-string 02d formatting for the small nonnegative ints the program pads. -/
def pad2 (z : Int) : String :=
  if 0 ≤ z ∧ z < 10 then "0" ++ toString z else toString z

mutual

/-- Python str() of a modelled value. -/
def pyStr : Val → String
  | .s str => str
  | .i z => toString z
  | .f q => floatStr q
  | .b bv => if bv then "True" else "False"
  | .null => "None"
  | .list xs => "[" ++ pyReprJoin xs ++ "]"
  | .dict m => "\x7b" ++ pyReprDictJoin m ++ "\x7d"

/-- Python repr() of a modelled value (strings quoted, used inside containers). -/
def pyReprOne : Val → String
  | .s str => "'" ++ str ++ "'"
  | .i z => toString z
  | .f q => floatStr q
  | .b bv => if bv then "True" else "False"
  | .null => "None"
  | .list xs => "[" ++ pyReprJoin xs ++ "]"
  | .dict m => "\x7b" ++ pyReprDictJoin m ++ "\x7d"

/-- Comma-joined element reprs of a list. -/
def pyReprJoin : List Val → String
  | [] => ""
  | [x] => pyReprOne x
  | x :: y :: rest => pyReprOne x ++ ", " ++ pyReprJoin (y :: rest)

/-- Comma-joined key-value reprs of a dict. -/
def pyReprDictJoin : List (String × Val) → String
  | [] => ""
  | [(k, v)] => "'" ++ k ++ "': " ++ pyReprOne v
  | (k, v) :: kv2 :: rest =>
    "'" ++ k ++ "': " ++ pyReprOne v ++ ", " ++ pyReprDictJoin (kv2 :: rest)

end

/-- Replace every non-overlapping occurrence of a pattern, left to right
(Python str.replace), on character lists with explicit fuel. -/
def replChars (tgt repl : List Char) : Nat → List Char → List Char
  | 0, s => s
  | _ + 1, [] => []
  | n + 1, c :: rest =>
    if ¬tgt.isEmpty ∧ tgt.isPrefixOf (c :: rest) then
      repl ++ replChars tgt repl n ((c :: rest).drop tgt.length)
    else c :: replChars tgt repl n rest

/-- Python s.replace(target, repl). -/
def strReplace (s target repl : String) : String :=
  String.mk (replChars target.data repl.data (s.length + 1) s.data)

/-- The placeholder-name extraction in _generate_values_recursive:
value.replace applied to both brace pairs. -/
def stripBraces (s : String) : String :=
  strReplace (strReplace s "\x7b\x7b" "") "\x7d\x7d" ""

/-- One modifier application in _generate_single_value: a mean entry
replaces the mean, a std entry replaces the std and is rescaled by the
randomization multiplier. -/
def applyMod (modifier : Val) (mean std multiplier : Rat) : Rat × Rat :=
  let mean1 := match modifier.get "mean" with
    | some x => (valAsRat x).getD 0
    | none => mean
  let std1 := match modifier.get "std" with
    | some x => (valAsRat x).getD 0 * multiplier
    | none => std
  (mean1, std1)

/-- The disease-modifier loop of _generate_single_value: the patient's
conditions are scanned in their stored order and the first one that has an
entry in disease_modifiers is applied, then the loop breaks. -/
def applyDiseaseScan (mods : Val) (conds : List String) (ms : Rat × Rat)
    (multiplier : Rat) : Rat × Rat :=
  match conds with
  | [] => ms
  | c :: rest =>
    match mods.get c with
    | some dm => applyMod dm ms.1 ms.2 multiplier
    | none => applyDiseaseScan mods rest ms multiplier

/-- The first patient condition having a disease_modifiers entry, if any
(the condition the break makes win). -/
def firstDiseaseMatch (mods : Val) (conds : List String) : Option String :=
  conds.find? (fun c => (mods.get c).isSome)

/-- _generate_single_value up to and including the critical-value clipping:
returns the clipped pre-rounding value, whether the declared base mean was an
int (which selects integer rounding), and the advanced numpy stream. -/
def genSingleValueCore (fieldSpec : Val) (patient : Patient) (multiplier : Rat)
    (np : RState) : Rat × Bool × RState :=
  let randomization := fieldSpec.getD "randomization" (.dict [])
  let distribution := ((randomization.get "distribution").bind valAsStr).getD "normal"
  let baseMean := (randomization.get "mean").getD (.i 0)
  let baseStd := (randomization.get "std").getD (.i 1)
  let mean0 := (valAsRat baseMean).getD 0
  let std0 := (valAsRat baseStd).getD 0 * multiplier
  -- gender modifiers
  let genderMods := randomization.getD "gender_modifiers" (.dict [])
  let lowered := String.map Char.toLower patient.gender
  let ms1 := match genderMods.get lowered with
    | some gm => applyMod gm mean0 std0 multiplier
    | none => (mean0, std0)
  -- age modifiers (elif chain with conjunctive guards)
  let ageMods := randomization.getD "age_modifiers" (.dict [])
  let ms2 :=
    if patient.age ≥ 65 ∧ (ageMods.get "elderly").isSome then
      applyMod ((ageMods.get "elderly").getD .null) ms1.1 ms1.2 multiplier
    else if patient.age ≤ 30 ∧ (ageMods.get "young").isSome then
      applyMod ((ageMods.get "young").getD .null) ms1.1 ms1.2 multiplier
    else ms1
  -- disease modifiers: first matching patient condition wins, then break
  let diseaseMods := randomization.getD "disease_modifiers" (.dict [])
  let ms3 := applyDiseaseScan diseaseMods patient.conditions ms2 multiplier
  -- distribution sampling
  let draw :=
    if distribution = "normal" then normalDraw ms3.1 ms3.2 np
    else if distribution = "log_normal" then
      lognormalDraw (logLike ms3.1) (ms3.2 / ms3.1) np
    else normalDraw ms3.1 ms3.2 np
  -- critical-value clipping: floor via max, then ceiling via min
  let criticalValues := fieldSpec.getD "critical_values" (.dict [])
  let v1 := match criticalValues.get "low" with
    | some lv => max draw.1 ((valAsRat lv).getD 0)
    | none => draw.1
  let v2 := match criticalValues.get "high" with
    | some hv => min v1 ((valAsRat hv).getD 0)
    | none => v1
  (v2, valIsInt baseMean, draw.2)

/-- TemplateEngine._generate_single_value: clipped draw, then integer
rounding when the declared base mean is an int, else rounding to 2 places. -/
def generateSingleValue (fieldSpec : Val) (patient : Patient) (multiplier : Rat)
    (np : RState) : Val × RState :=
  let core := genSingleValueCore fieldSpec patient multiplier np
  (if core.2.1 then Val.i (pyRound core.1) else Val.f (pyRound2 core.1), core.2.2)

/-- The declared critical-value floor of a field spec, when numeric. -/
def critLow (fieldSpec : Val) : Option Rat :=
  ((fieldSpec.getD "critical_values" (.dict [])).get "low").bind valAsRat

/-- The declared critical-value ceiling of a field spec, when numeric. -/
def critHigh (fieldSpec : Val) : Option Rat :=
  ((fieldSpec.getD "critical_values" (.dict [])).get "high").bind valAsRat

mutual

/-- TemplateEngine._generate_values_recursive.  Only dict structures yield
values; every dict entry whose value is itself a dict with a randomization
key becomes a synthesized field (with placeholder/unit/reference_range
companions), other dict values recurse, and recursion into lists yields
nothing (the Python function returns an empty mapping for non-dicts). -/
def genValuesRecursive (node : Val) (patient : Patient) (multiplier : Rat)
    (np : RState) : List (String × Val) × RState :=
  match node with
  | .dict entries => genValuesEntries entries [] patient multiplier np
  | _ => ([], np)

/-- The entry loop of _generate_values_recursive with the accumulated map. -/
def genValuesEntries (entries : List (String × Val)) (acc : List (String × Val))
    (patient : Patient) (multiplier : Rat) (np : RState) :
    List (String × Val) × RState :=
  match entries with
  | [] => (acc, np)
  | (key, v) :: rest =>
    match v with
    | .dict sub =>
      if (alook sub "randomization").isSome then
        let g := generateSingleValue (.dict sub) patient multiplier np
        let vals1 := updSet acc key g.1
        let vals2 := match alook sub "value" with
          | some pv =>
            let pk := stripBraces ((valAsStr pv).getD "")
            let a := updSet vals1 pk g.1
            let b := match alook sub "unit" with
              | some u => updSet a (pk ++ "_unit") u
              | none => a
            match alook sub "reference_range" with
            | some r => updSet b (pk ++ "_reference_range") r
            | none => b
          | none => vals1
        genValuesEntries rest vals2 patient multiplier g.2
      else
        let r := genValuesRecursive (.dict sub) patient multiplier np
        genValuesEntries rest (updMerge acc r.1) patient multiplier r.2
    | _ => genValuesEntries rest acc patient multiplier np

end

/-- The wall clock as consumed by the engine: datetime.now() appears only
through its year, its isoformat and the two strftime formats applied to
now minus a day offset.  These calendar computations are external to the
core and modelled as pre-formatted inputs. -/
structure Clock where
  year : Int
  isoformat : String
  ymdMinus : Nat → String
  longMinus : Nat → String

/-- The constraints section of a template. -/
structure ConstraintsSpec where
  age_range : Option (Int × Int)
  gender_specific : Option Bool
  required_conditions : Option (List String)
  conditions_relevant : Option (List String)
  deriving DecidableEq, Repr

/-- One condition_templates entry. -/
structure CondTemplate where
  chief_complaint : Option String
  primary_diagnosis : Option String
  hpi_template : Option String
  deriving DecidableEq, Repr

/-- One entry of the template-level randomization rules section. -/
structure RuleSpec where
  values : Option (List String)
  distribution : Option String
  weights : Option (List Rat)

/-- A parsed template: the six top-level keys the engine reads.  A YAML file
that parses to nothing yields a falsy template (all sections absent), which
generate_document treats exactly like a missing path. -/
structure Template where
  constraints : Option ConstraintsSpec
  template : Option Val
  condition_templates : Option (List (String × CondTemplate))
  calculated_fields : Option (List (String × String))
  report_template : Option String
  randomization : Option (List (String × RuleSpec))

/-- Python falsiness of the template dict: no keys at all. -/
def templateFalsy (t : Template) : Bool :=
  t.constraints.isNone && t.template.isNone && t.condition_templates.isNone &&
    t.calculated_fields.isNone && t.report_template.isNone && t.randomization.isNone

/-- Python str() of a 2-element int list, as interpolated in the age error. -/
def intPairStr (lo hi : Int) : String :=
  "[" ++ toString lo ++ ", " ++ toString hi ++ "]"

/-- Python str() of a list of strings, as interpolated in the warning. -/
def strListStr (xs : List String) : String :=
  "[" ++ String.intercalate ", " (xs.map (fun x => "\x27" ++ x ++ "\x27")) ++ "]"

/-- The age-range error list of _validate_patient_constraints. -/
def ageErrors (c : ConstraintsSpec) (p : Patient) : List String :=
  match c.age_range with
  | some (lo, hi) =>
    if ¬(lo ≤ p.age ∧ p.age ≤ hi) then
      ["Patient age " ++ toString p.age ++ " outside template range " ++ intPairStr lo hi]
    else []
  | none => []

/-- The required-conditions error list: one error per missing entry, in order. -/
def requiredErrors (c : ConstraintsSpec) (p : Patient) : List String :=
  (c.required_conditions.getD []).filterMap (fun cond =>
    if cond ∈ p.conditions then none
    else some ("Required condition \x27" ++ cond ++ "\x27 not found in patient"))

/-- The relevant-conditions warning list: a single warning when the list is
non-empty and the patient has none of its entries. -/
def relevantWarnings (c : ConstraintsSpec) (p : Patient) : List String :=
  let relevant := c.conditions_relevant.getD []
  if ¬relevant.isEmpty ∧ ¬relevant.any (fun cond => cond ∈ p.conditions) then
    ["Patient has none of the relevant conditions: " ++ strListStr relevant]
  else []

/-- TemplateEngine._validate_patient_constraints. -/
def validatePatientConstraints (t : Template) (p : Patient) : ValidationResult :=
  let c := t.constraints.getD ⟨none, none, none, none⟩
  let errors := ageErrors c p ++ requiredErrors c p
  let warnings := relevantWarnings c p
  { is_valid := errors.isEmpty
  , errors := errors
  , warnings := warnings
  , critical_issues := [] }

/-- TemplateEngine._generate_condition_specific_content: the per-condition
chief complaint, control status, symptoms, diagnosis and HPI text, plus the
generic examination findings appended for every condition. -/
def generateConditionSpecificContent (condition : String) (py : RState) :
    List (String × Val) × RState :=
  let base :=
    if condition = "diabetes" then
      let d1 := choiceD "" ["good", "fair", "poor"] py
      let d2 := choiceD ""
        [ "Denies polyuria, polydipsia, or polyphagia"
        , "Reports occasional increased thirst"
        , "No concerning symptoms at this time"
        , "Some fatigue but otherwise stable" ] d1.2
      let d3 := choiceD "" ["good", "fair", "suboptimal"] d2.2
      let d4 := choiceD ""
        [ "Denies polyuria, polydipsia, or polyphagia"
        , "Reports occasional increased thirst"
        , "Some fatigue but otherwise doing well" ] d3.2
      ( [ ("chief_complaint", Val.s "Follow-up for diabetes management")
        , ("glucose_control_status", Val.s d1.1)
        , ("symptom_description", Val.s d2.1)
        , ("primary_diagnosis", Val.s "Type 2 Diabetes Mellitus (E11.9)")
        , ("hpi_text", Val.s
            ("Patient with type 2 diabetes mellitus presents for routine follow-up. Reports "
              ++ d3.1 ++ " glycemic control. " ++ d4.1
              ++ ". Adherent to prescribed medications.")) ]
      , d4.2)
    else if condition = "hypertension" then
      let d1 := choiceD "" ["well-controlled", "moderately controlled", "suboptimal"] py
      let d2 := choiceD ""
        [ "Denies chest pain, shortness of breath, or headaches"
        , "Occasional mild headaches"
        , "No concerning cardiovascular symptoms" ] d1.2
      let d3 := choiceD "" ["well-controlled", "moderately controlled", "elevated"] d2.2
      let d4 := choiceD ""
        [ "Denies chest pain or shortness of breath"
        , "Reports adherence to medications"
        , "No concerning symptoms" ] d3.2
      ( [ ("chief_complaint", Val.s "Follow-up for hypertension")
        , ("bp_control_status", Val.s d1.1)
        , ("symptom_description", Val.s d2.1)
        , ("primary_diagnosis", Val.s "Essential Hypertension (I10)")
        , ("hpi_text", Val.s
            ("Patient with essential hypertension presents for routine follow-up. Blood pressure has been "
              ++ d3.1 ++ " with current regimen. " ++ d4.1
              ++ ". Taking medications as prescribed.")) ]
      , d4.2)
    else if condition = "asthma" then
      let d1 := choiceD "" ["well-controlled", "partially controlled", "poorly controlled"] py
      let d2 := choiceD "" ["rarely", "2-3 times per week", "daily"] d1.2
      let d3 := choiceD ""
        [ "Denies wheezing or shortness of breath"
        , "Occasional mild wheezing with exertion"
        , "Some cough, especially at night" ] d2.2
      let d4 := choiceD "" ["good", "fair", "poor"] d3.2
      let d5 := choiceD ""
        [ "Denies recent exacerbations"
        , "Occasional mild symptoms"
        , "Some nighttime awakening" ] d4.2
      let d6 := choiceD "" ["rarely", "2-3 times weekly", "daily"] d5.2
      ( [ ("chief_complaint", Val.s "Follow-up for asthma management")
        , ("asthma_control_status", Val.s d1.1)
        , ("rescue_frequency", Val.s d2.1)
        , ("symptom_description", Val.s d3.1)
        , ("primary_diagnosis", Val.s "Asthma, unspecified (J45.9)")
        , ("hpi_text", Val.s
            ("Patient with asthma presents for follow-up. Reports " ++ d4.1
              ++ " control with current regimen. " ++ d5.1
              ++ ". Using rescue inhaler " ++ d6.1 ++ ".")) ]
      , d6.2)
    else ([], py)
  -- generic examination findings appended for every condition
  let e1 := choiceD ""
    [ "Regular rate and rhythm. No murmurs, gallops, or rubs."
    , "RRR. Grade 2/6 systolic murmur at LUSB."
    , "Regular rate and rhythm. Normal S1, S2." ] base.2
  let e2 := choiceD ""
    [ "Clear to auscultation bilaterally."
    , "Clear bilaterally with good air movement."
    , "Mild expiratory wheeze, otherwise clear." ] e1.2
  ( base.1 ++
    [ ("heent_exam", Val.s "Normocephalic, atraumatic. PERRLA. No lymphadenopathy.")
    , ("cv_exam", Val.s e1.1)
    , ("pulm_exam", Val.s e2.1)
    , ("abd_exam", Val.s "Soft, non-tender, non-distended. Normal bowel sounds.")
    , ("neuro_exam", Val.s "Alert and oriented x3. Grossly intact.")
    , ("ext_exam", Val.s "No clubbing, cyanosis, or edema.")
    , ("skin_exam", Val.s "Warm, dry, intact. No rashes or lesions.") ]
  , e2.2)

/-- TemplateEngine._generate_common_placeholders: the name, date, provider,
clinic and lifestyle placeholders, each drawn from the seeded stream in
source order, with the dates supplied by the external clock; extended with
the condition-specific content of the first patient condition when the
patient has any conditions. -/
def generateCommonPlaceholders (patient : Patient) (ck : Clock) (py : RState) :
    List (String × Val) × RState :=
  let n1 :=
    if String.map Char.toLower patient.gender = "male" then
      choiceD "" ["James", "John", "Robert", "Michael", "William", "David", "Richard", "Thomas"] py
    else
      choiceD "" ["Mary", "Patricia", "Jennifer", "Linda", "Elizabeth", "Barbara", "Susan", "Jessica"] py
  let n2 := choiceD ""
    [ "Smith", "Johnson", "Williams", "Brown", "Jones", "Garcia", "Miller", "Davis"
    , "Rodriguez", "Martinez", "Anderson", "Taylor", "Wilson", "Moore" ] n1.2
  let patientName := n1.1 ++ " " ++ n2.1
  let birthYear := ck.year - patient.age
  let bm := randIntAB 1 12 n2.2
  let bd := randIntAB 1 28 bm.2
  let patientDob := pad2 bm.1 ++ "/" ++ pad2 bd.1 ++ "/" ++ toString birthYear
  let mrn := randIntAB 100000 999999 bd.2
  let ph1 := randIntAB 200 999 mrn.2
  let ph2 := randIntAB 200 999 ph1.2
  let ph3 := randIntAB 1000 9999 ph2.2
  let cold := randIntAB 0 30 ph3.2
  let measd := randIntAB 0 7 cold.2
  let mth := randIntAB 8 17 measd.2
  let mtm := randIntAB 0 59 mth.2
  let visd := randIntAB 0 14 mtm.2
  let phys := choiceD ""
    [ "Dr. Smith", "Dr. Johnson", "Dr. Williams", "Dr. Brown", "Dr. Jones"
    , "Dr. Garcia", "Dr. Miller", "Dr. Davis", "Dr. Rodriguez", "Dr. Martinez" ] visd.2
  let attend := choiceD ""
    [ "Dr. Sarah Johnson", "Dr. Michael Chen", "Dr. Emily Davis", "Dr. Robert Wilson"
    , "Dr. Lisa Rodriguez", "Dr. James Anderson", "Dr. Maria Garcia", "Dr. David Kim" ] phys.2
  let ptitle := choiceD "" ["MD", "MD, PhD", "DO"] attend.2
  let pspec := choiceD ""
    ["Internal Medicine", "Family Medicine", "Cardiology", "Endocrinology", "Pulmonology"] ptitle.2
  let npi := randIntAB 1000000000 9999999999 pspec.2
  let refp := choiceD "" ["Dr. Thompson", "Dr. Lee", "Dr. White", "Dr. Clark", "Dr. Lewis"] npi.2
  let rtitle := choiceD "" ["MD", "DO", "NP", "PA"] refp.2
  let rprac := choiceD ""
    [ "Primary Care Associates", "Family Health Center", "Community Medical Group"
    , "Riverside Primary Care", "Downtown Family Practice" ] rtitle.2
  let raddr := choiceD ""
    [ "123 Main St, Suite 200, Anytown, ST 12345"
    , "456 Oak Ave, Medical Plaza, Anytown, ST 12345"
    , "789 Elm St, Anytown, ST 12345" ] rprac.2
  let staff := choiceD ""
    ["Nurse Johnson", "Tech Williams", "RN Anderson", "MA Thompson", "LPN Garcia"] raddr.2
  let cname := choiceD ""
    [ "Main Campus Clinic", "Downtown Medical Center", "Riverside Health"
    , "University Hospital", "Community Care Center", "Metropolitan Medical Clinic" ] staff.2
  let caddr := choiceD ""
    [ "1000 Hospital Drive, Suite 300, Medical City, ST 12345"
    , "555 Health Plaza, Anytown, ST 12345"
    , "200 Wellness Way, Medical District, ST 12345" ] cname.2
  let cp1 := randIntAB 200 999 caddr.2
  let cp2 := randIntAB 200 999 cp1.2
  let cp3 := randIntAB 1000 9999 cp2.2
  let cf1 := randIntAB 200 999 cp3.2
  let cf2 := randIntAB 200 999 cf1.2
  let cf3 := randIntAB 1000 9999 cf2.2
  let mloc := choiceD ""
    ["Exam Room 1", "Exam Room 2", "Clinic", "Emergency Department", "ICU"] cf3.2
  let ins := choiceD ""
    ["Blue Cross Blue Shield", "Aetna", "Cigna", "UnitedHealthcare", "Medicare"] mloc.2
  let occ := choiceD ""
    ["Teacher", "Engineer", "Nurse", "Accountant", "Retired", "Manager", "Sales", "Construction"] ins.2
  let exh := choiceD ""
    [ "Walks 30 minutes daily", "Sedentary lifestyle", "Exercises 3x/week"
    , "Active lifestyle", "Occasional walking" ] occ.2
  let fam := choiceD ""
    [ "Father with diabetes, mother with hypertension"
    , "No significant family history"
    , "Mother with breast cancer, father with heart disease"
    , "Diabetes and hypertension in family"
    , "History of heart disease on paternal side" ] exh.2
  let common : List (String × Val) :=
    [ ("patient_id", Val.s patient.id)
    , ("patient_name", Val.s patientName)
    , ("patient_dob", Val.s patientDob)
    , ("patient_mrn", Val.s ("MRN" ++ toString mrn.1))
    , ("patient_phone", Val.s
        ("(" ++ toString ph1.1 ++ ") " ++ toString ph2.1 ++ "-" ++ toString ph3.1))
    , ("collection_date", Val.s (ck.ymdMinus cold.1.toNat))
    , ("measurement_date", Val.s (ck.ymdMinus measd.1.toNat))
    , ("measurement_time", Val.s (pad2 mth.1 ++ ":" ++ pad2 mtm.1))
    , ("letter_date", Val.s (ck.longMinus 0))
    , ("visit_date", Val.s (ck.longMinus visd.1.toNat))
    , ("signature_date", Val.s (ck.longMinus 0))
    , ("physician_name", Val.s phys.1)
    , ("attending_physician", Val.s attend.1)
    , ("physician_title", Val.s ptitle.1)
    , ("physician_specialty", Val.s pspec.1)
    , ("provider_npi", Val.s (toString npi.1))
    , ("referring_provider", Val.s refp.1)
    , ("provider_title", Val.s rtitle.1)
    , ("referring_practice", Val.s rprac.1)
    , ("referring_address", Val.s raddr.1)
    , ("staff_name", Val.s staff.1)
    , ("clinic_name", Val.s cname.1)
    , ("clinic_address", Val.s caddr.1)
    , ("clinic_phone", Val.s
        ("(" ++ toString cp1.1 ++ ") " ++ toString cp2.1 ++ "-" ++ toString cp3.1))
    , ("clinic_fax", Val.s
        ("(" ++ toString cf1.1 ++ ") " ++ toString cf2.1 ++ "-" ++ toString cf3.1))
    , ("measurement_location", Val.s mloc.1)
    , ("insurance_info", Val.s ins.1)
    , ("occupation", Val.s occ.1)
    , ("exercise_habits", Val.s exh.1)
    , ("family_history", Val.s fam.1) ]
  match patient.conditions with
  | [] => (common, fam.2)
  | primary :: _ =>
    let cc := generateConditionSpecificContent primary fam.2
    (updMerge common cc.1, cc.2)

/-- TemplateEngine._populate_hpi_template: build the per-condition
replacement map in source order, then substitute each doubly-braced
placeholder into the HPI template. -/
def populateHpi (hpiTemplate : String) (condition : String) (py : RState) :
    String × RState :=
  let rep :=
    if condition = "colon_cancer" then
      let d1 := choiceD "" ["Stage II", "Stage IIIA", "Stage IIIB", "Stage IV"] py
      let d2 := choiceD ""
        ["Tolerating well", "Experiencing mild side effects", "Good response"] d1.2
      let d3 := choiceD ""
        [ "minimal gastrointestinal symptoms"
        , "mild fatigue but maintaining activity level"
        , "some nausea with recent chemotherapy cycle" ] d2.2
      let d4 := choiceD ""
        [ "maintains good performance status"
        , "able to perform activities of daily living"
        , "reports improved energy levels" ] d3.2
      let d5 := choiceD ""
        [ "Minimal treatment-related side effects"
        , "Manageable neuropathy in fingertips"
        , "Occasional mild nausea, controlled with medication" ] d4.2
      ( [ ("cancer_stage", d1.1), ("treatment_status", d2.1)
        , ("symptom_description", d3.1), ("performance_status", d4.1)
        , ("side_effects_status", d5.1) ], d5.2)
    else if condition = "diabetes" then
      let d1 := choiceD "" ["good", "fair", "suboptimal"] py
      let d2 := choiceD ""
        [ "Denies polyuria, polydipsia, or polyphagia"
        , "Reports occasional increased thirst"
        , "Some fatigue but otherwise stable" ] d1.2
      ([("glucose_control_status", d1.1), ("symptom_description", d2.1)], d2.2)
    else if condition = "hypertension" then
      let d1 := choiceD "" ["well-controlled", "moderately controlled", "suboptimal"] py
      let d2 := choiceD ""
        [ "Denies chest pain, shortness of breath, or headaches"
        , "Occasional mild headaches"
        , "No concerning cardiovascular symptoms" ] d1.2
      ([("bp_control_status", d1.1), ("symptom_description", d2.1)], d2.2)
    else ([], py)
  ( rep.1.foldl (fun acc kv =>
      strReplace acc ("\x7b\x7b" ++ kv.1 ++ "\x7d\x7d") kv.2) hpiTemplate
  , rep.2)

/-- TemplateEngine._generate_physical_exam_content. -/
def generatePhysicalExamContent (py : RState) : List (String × Val) × RState :=
  let d1 := choiceD ""
    [ "Well-appearing, in no acute distress"
    , "Appears stated age, alert and oriented"
    , "Pleasant and cooperative"
    , "Mildly fatigued but alert" ] py
  let d2 := choiceD ""
    [ "Regular rate and rhythm. No murmurs, gallops, or rubs."
    , "RRR. Normal S1, S2."
    , "Regular rate and rhythm. No edema." ] d1.2
  let d3 := choiceD ""
    [ "Clear to auscultation bilaterally."
    , "Clear bilaterally with good air movement."
    , "No wheezes, rales, or rhonchi." ] d2.2
  let d4 := choiceD ""
    [ "Soft, non-tender, non-distended. Normal bowel sounds."
    , "Benign. No masses or organomegaly."
    , "Soft, non-tender. No guarding or rebound." ] d3.2
  ( [ ("general_appearance", Val.s d1.1)
    , ("heent_exam", Val.s "Normocephalic, atraumatic. PERRLA. No lymphadenopathy.")
    , ("cv_exam", Val.s d2.1)
    , ("pulm_exam", Val.s d3.1)
    , ("abd_exam", Val.s d4.1)
    , ("neuro_exam", Val.s "Alert and oriented x3. Grossly intact.")
    , ("ext_exam", Val.s "No edema, cyanosis, or clubbing.")
    , ("skin_exam", Val.s "No rashes or lesions noted.") ]
  , d4.2)

/-- TemplateEngine._generate_assessment_and_plan. -/
def generateAssessmentAndPlan (patient : Patient) (primary : Option String)
    (py : RState) : List (String × Val) × RState :=
  let secondary := (patient.conditions.filter (fun c => some c ≠ primary)).take 2
  let sdx1 := if secondary.length > 0 then secondary.getD 0 "" else "None"
  let sdx2 := if secondary.length > 1 then secondary.getD 1 "" else "None"
  let ci :=
    if primary = some "colon_cancer" then
      choiceD ""
        [ "Patient with colon cancer responding well to current chemotherapy regimen."
        , "Stable colon adenocarcinoma on active treatment with manageable side effects."
        , "Good tolerance of current oncological therapy with adequate performance status." ] py
    else ("Patient stable on current medical regimen.", py)
  let ma1 := choiceD "" ["Continue", "Increase", "Adjust"] ci.2
  let ma2 := choiceD "" ["Continue", "Add", "Monitor"] ma1.2
  let mp1 :=
    if ¬patient.medications.isEmpty then patient.medications.getD 0 ""
    else "current medications"
  let mp2 :=
    if patient.medications.length > 1 then patient.medications.getD 1 ""
    else "supportive care"
  let fu1 := choiceD ""
    ["Return to clinic in 3 months", "Follow-up in 4-6 weeks", "Return PRN for concerns"] ma2.2
  let fu2 := choiceD ""
    ["Continue current medications", "Laboratory studies in 3 months", "Monitor symptoms"] fu1.2
  let ls1 := choiceD ""
    [ "Continue regular exercise as tolerated", "Maintain healthy diet"
    , "Adequate rest and stress management" ] fu2.2
  let ls2 := choiceD ""
    [ "Smoking cessation counseling", "Weight management as appropriate"
    , "Adherence to medication regimen" ] ls1.2
  let at1 :=
    if primary = some "colon_cancer" then
      choiceD ""
        ["CEA level in 3 months", "CT abdomen/pelvis in 3 months", "CBC and CMP prior to next cycle"] ls2.2
    else ("Laboratory studies as indicated", ls2.2)
  let at2 :=
    if primary = some "colon_cancer" then
      choiceD ""
        ["Nutritional assessment", "Oncology follow-up in 2 weeks", "Supportive care evaluation"] at1.2
    else ("Imaging studies if needed", at1.2)
  ( [ ("secondary_dx_1", Val.s sdx1)
    , ("secondary_dx_2", Val.s sdx2)
    , ("clinical_impression", Val.s ci.1)
    , ("med_action_1", Val.s ma1.1)
    , ("med_action_2", Val.s ma2.1)
    , ("med_plan_1", Val.s mp1)
    , ("med_plan_2", Val.s mp2)
    , ("followup_1", Val.s fu1.1)
    , ("followup_2", Val.s fu2.1)
    , ("lifestyle_1", Val.s ls1.1)
    , ("lifestyle_2", Val.s ls2.1)
    , ("additional_test_1", Val.s at1.1)
    , ("additional_test_2", Val.s at2.1) ]
  , at2.2)

/-- TemplateEngine._generate_vital_signs. -/
def generateVitalSigns (patient : Patient) (py : RState) :
    List (String × Val) × RState :=
  let bp :=
    if "hypertension" ∈ patient.conditions then
      let s1 := randIntAB 130 160 py
      let s2 := randIntAB 85 100 s1.2
      ((s1.1, s2.1), s2.2)
    else (((120 : Int), (80 : Int)), py)
  let hr := randIntAB 60 100 bp.2
  let temp := uniform1 97 (199/2) hr.2
  let rr := randIntAB 12 20 temp.2
  let wt := randIntAB 120 250 rr.2
  let ht := randIntAB 60 76 wt.2
  let bmi := uniform1 20 35 ht.2
  ( [ ("blood_pressure", Val.s (toString bp.1.1 ++ "/" ++ toString bp.1.2))
    , ("heart_rate", Val.s (toString hr.1))
    , ("temperature", Val.s (fmt1 temp.1 ++ "\xC2\xB0F"))
    , ("respiratory_rate", Val.s (toString rr.1))
    , ("weight", Val.s (toString wt.1 ++ " lbs"))
    , ("height", Val.s (toString ht.1 ++ " inches"))
    , ("bmi", Val.s (fmt1 bmi.1)) ]
  , bmi.2)

/-- TemplateEngine._generate_social_history. -/
def generateSocialHistory (patient : Patient) (py : RState) :
    List (String × Val) × RState :=
  let p1 :=
    if patient.conditions.length > 0 then
      choiceD "" ["Hypertension", "Diabetes", "Hyperlipidemia", "Osteoarthritis"] py
    else ("No significant PMH", py)
  let p2 := choiceD ""
    ["Previous surgery", "Medication allergies", "No hospitalizations"] p1.2
  ( [ ("pmh_item_1", Val.s p1.1)
    , ("pmh_item_2", Val.s p2.1)
    , ("pmh_item_3", Val.s "See medication list")
    , ("medication_1", Val.s
        (if patient.medications.length > 0 then patient.medications.getD 0 "" else "None"))
    , ("medication_2", Val.s
        (if patient.medications.length > 1 then patient.medications.getD 1 "" else ""))
    , ("medication_3", Val.s
        (if patient.medications.length > 2 then patient.medications.getD 2 "" else "")) ]
  , p2.2)

/-- Python str.title() as applied to condition tags. -/
def pyTitleAux : Bool → List Char → List Char
  | _, [] => []
  | prevAlpha, c :: rest =>
    let c2 := if c.isAlpha then (if prevAlpha then c.toLower else c.toUpper) else c
    c2 :: pyTitleAux c.isAlpha rest

/-- condition.replace(underscore, space).title(), the fallback PMH phrase. -/
def pmhFallback (condition : String) : String :=
  String.mk (pyTitleAux false (strReplace condition "_" " ").data)

/-- The condition-to-phrase mapping of _generate_pmh_list. -/
def pmhPhrase (condition : String) : String :=
  if condition = "colon_cancer" then "Colon adenocarcinoma, diagnosed 2023"
  else if condition = "diabetes" then "Type 2 diabetes mellitus"
  else if condition = "hypertension" then "Essential hypertension"
  else if condition = "asthma" then "Asthma"
  else if condition = "copd" then "Chronic obstructive pulmonary disease"
  else if condition = "heart_disease" then "Coronary artery disease"
  else if condition = "obesity" then "Obesity"
  else pmhFallback condition

/-- TemplateEngine._generate_pmh_list. -/
def generatePmhList (patient : Patient) (py : RState) : List String × RState :=
  let items := patient.conditions.map pmhPhrase
  let k := randIntAB 1 2 py
  let extra := choicesK
    [ "Hyperlipidemia", "Osteoarthritis", "GERD", "Vitamin D deficiency"
    , "Previous appendectomy", "No other significant medical history" ] k.1.toNat k.2
  let all := items ++ extra.1
  (if all.isEmpty then ["No significant past medical history"] else all, extra.2)

/-- The first patient condition that has a condition_templates entry. -/
def findPrimaryCondition (ct : List (String × CondTemplate)) :
    List String → Option String
  | [] => none
  | c :: rest => if (dlook ct c).isSome then some c else findPrimaryCondition ct rest

/-- TemplateEngine._generate_medical_content_placeholders. -/
def generateMedicalContent (t : Template) (patient : Patient) (py : RState) :
    List (String × Val) × RState :=
  let ct := t.condition_templates.getD []
  let rules := t.randomization.getD []
  let primary := findPrimaryCondition ct patient.conditions
  let step1 : List (String × Val) × RState :=
    match primary with
    | some c =>
      let entry := (dlook ct c).getD ⟨none, none, none⟩
      let hpi := populateHpi
        (entry.hpi_template.getD "Patient presents for routine follow-up.") c py
      ( [ ("chief_complaint", Val.s (entry.chief_complaint.getD "Routine follow-up"))
        , ("primary_diagnosis", Val.s (entry.primary_diagnosis.getD "Unspecified condition"))
        , ("hpi_text", Val.s hpi.1) ]
      , hpi.2)
    | none =>
      ( [ ("chief_complaint", Val.s "Routine follow-up visit")
        , ("primary_diagnosis", Val.s "General medical examination")
        , ("hpi_text", Val.s
            "Patient presents for routine medical follow-up. Overall doing well with current treatment regimen.") ]
      , py)
  let pe := generatePhysicalExamContent step1.2
  let m1 := updMerge step1.1 pe.1
  let ap := generateAssessmentAndPlan patient primary pe.2
  let m2 := updMerge m1 ap.1
  let vs := generateVitalSigns patient ap.2
  let m3 := updMerge m2 vs.1
  let sh := generateSocialHistory patient vs.2
  let m4 := updMerge m3 sh.1
  let pmh := generatePmhList patient sh.2
  let m5 := updSet m4 "past_medical_history" (.list (pmh.1.map .s))
  let m6 := updSet m5 "medications"
    (if ¬patient.medications.isEmpty then .list (patient.medications.map .s)
     else .list [.s "None"])
  let planVal : Val := .dict
    [ ("medications", .list
        [ .dict [ ("action", (alook m6 "med_action_1").getD (.s "Continue"))
                , ("medication", (alook m6 "med_plan_1").getD (.s "current medications")) ]
        , .dict [ ("action", (alook m6 "med_action_2").getD (.s "Continue"))
                , ("medication", (alook m6 "med_plan_2").getD (.s "supportive care")) ] ])
    , ("follow_up", .list
        [ (alook m6 "followup_1").getD (.s "Return to clinic in 3 months")
        , (alook m6 "followup_2").getD (.s "Continue current medications") ])
    , ("lifestyle_modifications", .list
        [ (alook m6 "lifestyle_1").getD (.s "Continue regular exercise as tolerated")
        , (alook m6 "lifestyle_2").getD (.s "Maintain healthy diet") ])
    , ("additional_testing", .list
        [ (alook m6 "additional_test_1").getD (.s "Laboratory studies as indicated")
        , (alook m6 "additional_test_2").getD (.s "Imaging studies if needed") ]) ]
  let m7 := updSet m6 "plan" planVal
  let secondary := (patient.conditions.filter (fun c => some c ≠ primary)).take 2
  let m8 :=
    if ¬secondary.isEmpty then updSet m7 "secondary_diagnoses" (.list (secondary.map .s))
    else m7
  -- template-level randomization rules: weighted or uniform categorical draw
  -- (the weight vector only shapes the distribution, so both arms of the
  -- Python conditional consume one selection from the stream)
  rules.foldl
    (fun (acc : List (String × Val) × RState) fr =>
      match fr.2.values with
      | some vals =>
        if fr.2.distribution = some "weighted_categorical" ∧ fr.2.weights.isSome then
          let p := choiceD "" vals acc.2
          (updSet acc.1 fr.1 (.s p.1), p.2)
        else
          let p := choiceD "" vals acc.2
          (updSet acc.1 fr.1 (.s p.1), p.2)
      | none => acc)
    (m8, pmh.2)

/-- Leftmost match of the double-braced placeholder pattern: two opening
braces, one or more non-closing-brace characters (the greedy name group),
two closing braces.  On a failed attempt the scan advances one character,
like the regex engine.  Returns (prefix, name group, remainder). -/
def findPh : Nat → List Char → Option (List Char × List Char × List Char)
  | 0, _ => none
  | _ + 1, [] => none
  | n + 1, c :: rest =>
    let fallback :=
      match findPh n rest with
      | none => none
      | some (pre, nm, post) => some (c :: pre, nm, post)
    if c = '\x7b' then
      match rest with
      | c2 :: rest2 =>
        if c2 = '\x7b' then
          let nm := rest2.takeWhile (fun x => x ≠ '\x7d')
          let after := rest2.drop nm.length
          if nm.isEmpty then fallback
          else
            match after with
            | a1 :: a2 :: post =>
              if a1 = '\x7d' ∧ a2 = '\x7d' then some ([], nm, post)
              else fallback
            | _ => fallback
        else fallback
      | [] => none
    else fallback

/-- The placeholder substitution of _replace_placeholders_recursive: the raw
(unstripped) group is looked up and a missing name leaves the original
doubly-braced text in place. -/
def phStructuredAux (values : List (String × Val)) : Nat → List Char → List Char
  | 0, s => s
  | n + 1, s =>
    match findPh (s.length + 1) s with
    | none => s
    | some (pre, nm, post) =>
      let repl := match alook values (String.mk nm) with
        | some v => (pyStr v).data
        | none => ('\x7b' :: '\x7b' :: nm) ++ ['\x7d', '\x7d']
      pre ++ repl ++ phStructuredAux values n post

/-- String leaves of the structured pass. -/
def phStructured (s : String) (values : List (String × Val)) : String :=
  String.mk (phStructuredAux values (s.length + 1) s.data)

mutual

/-- TemplateEngine._replace_placeholders_recursive: placeholder substitution
on string leaves, recursion into dicts (dropping the randomization,
critical_values and reference_range keys) and lists, identity elsewhere. -/
def replacePlaceholdersRec (obj : Val) (values : List (String × Val)) : Val :=
  match obj with
  | .s str => .s (phStructured str values)
  | .dict m => .dict (replaceDictEntries m values)
  | .list xs => .list (replaceListEntries xs values)
  | other => other

/-- Dict recursion of _replace_placeholders_recursive. -/
def replaceDictEntries (m : List (String × Val)) (values : List (String × Val)) :
    List (String × Val) :=
  match m with
  | [] => []
  | (k, v) :: rest =>
    if k = "randomization" ∨ k = "critical_values" ∨ k = "reference_range" then
      replaceDictEntries rest values
    else (k, replacePlaceholdersRec v values) :: replaceDictEntries rest values

/-- List recursion of _replace_placeholders_recursive. -/
def replaceListEntries (xs : List Val) (values : List (String × Val)) : List Val :=
  match xs with
  | [] => []
  | x :: rest => replacePlaceholdersRec x values :: replaceListEntries rest values

end

/-- A Python number as produced by evaluating an arithmetic formula. -/
inductive PyNum where
  | int (z : Int)
  | float (q : Rat)
  deriving DecidableEq, Repr

/-- Numeric value of a PyNum. -/
def PyNum.toRat : PyNum → Rat
  | .int z => (z : Rat)
  | .float q => q

/-- Binary arithmetic with Python type propagation: int op int is int,
anything involving a float is float. -/
def pnBin (f : Int → Int → Int) (g : Rat → Rat → Rat) : PyNum → PyNum → PyNum
  | .int a, .int b => .int (f a b)
  | a, b => .float (g a.toRat b.toRat)

/-- Python + on numbers. -/
def pnAdd : PyNum → PyNum → PyNum := pnBin (· + ·) (· + ·)

/-- Python - on numbers. -/
def pnSub : PyNum → PyNum → PyNum := pnBin (· - ·) (· - ·)

/-- Python * on numbers. -/
def pnMul : PyNum → PyNum → PyNum := pnBin (· * ·) (· * ·)

/-- Python / (true division): always float, error on a zero divisor. -/
def pnDiv (a b : PyNum) : Option PyNum :=
  if b.toRat = 0 then none else some (.float (a.toRat / b.toRat))

/-- Python unary minus on numbers. -/
def pnNeg : PyNum → PyNum
  | .int z => .int (-z)
  | .float q => .float (-q)

/-- Tokens of the arithmetic formula language the calculated fields use. -/
inductive FTok where
  | num (n : PyNum)
  | plus
  | minus
  | star
  | slash
  | lpar
  | rpar
  deriving DecidableEq, Repr

/-- Decimal value of a digit sequence. -/
def digitsVal (ds : List Char) : Nat :=
  ds.foldl (fun acc c => acc * 10 + (c.toNat - 48)) 0

/-- Tokenizer for substituted formulas: numbers (int and decimal literals),
the four operators and parentheses; anything else makes evaluation fail,
which the engine turns into a missing result. -/
def fTokenize : Nat → List Char → Option (List FTok)
  | 0, _ => none
  | _ + 1, [] => some []
  | n + 1, c :: rest =>
    if c = ' ' ∨ c = '\t' then fTokenize n rest
    else if c = '+' then (fTokenize n rest).map (FTok.plus :: ·)
    else if c = '-' then (fTokenize n rest).map (FTok.minus :: ·)
    else if c = '*' then (fTokenize n rest).map (FTok.star :: ·)
    else if c = '/' then (fTokenize n rest).map (FTok.slash :: ·)
    else if c = '(' then (fTokenize n rest).map (FTok.lpar :: ·)
    else if c = ')' then (fTokenize n rest).map (FTok.rpar :: ·)
    else if c.isDigit ∨ (c = '.' ∧ (rest.headD ' ').isDigit) then
      let s := c :: rest
      let ip := s.takeWhile Char.isDigit
      let s2 := s.drop ip.length
      match s2 with
      | '.' :: s3 =>
        let fp := s3.takeWhile Char.isDigit
        let s4 := s3.drop fp.length
        let v : Rat := (digitsVal ip : Rat) + (digitsVal fp : Rat) / ((10 : Rat) ^ fp.length)
        (fTokenize n s4).map (FTok.num (.float v) :: ·)
      | _ => (fTokenize n s2).map (FTok.num (.int (digitsVal ip)) :: ·)
    else none

mutual

/-- Additive level of the formula grammar. -/
def parseE : Nat → List FTok → Option (PyNum × List FTok)
  | 0, _ => none
  | n + 1, toks => (parseT n toks).bind (fun r => parseELoop n r.1 r.2)

/-- Trailing + and - applications, left associative. -/
def parseELoop : Nat → PyNum → List FTok → Option (PyNum × List FTok)
  | 0, _, _ => none
  | n + 1, accv, FTok.plus :: rest =>
    (parseT n rest).bind (fun r => parseELoop n (pnAdd accv r.1) r.2)
  | n + 1, accv, FTok.minus :: rest =>
    (parseT n rest).bind (fun r => parseELoop n (pnSub accv r.1) r.2)
  | _ + 1, accv, toks => some (accv, toks)

/-- Multiplicative level. -/
def parseT : Nat → List FTok → Option (PyNum × List FTok)
  | 0, _ => none
  | n + 1, toks => (parseF n toks).bind (fun r => parseTLoop n r.1 r.2)

/-- Trailing * and / applications, left associative; division by zero fails. -/
def parseTLoop : Nat → PyNum → List FTok → Option (PyNum × List FTok)
  | 0, _, _ => none
  | n + 1, accv, FTok.star :: rest =>
    (parseF n rest).bind (fun r => parseTLoop n (pnMul accv r.1) r.2)
  | n + 1, accv, FTok.slash :: rest =>
    (parseF n rest).bind (fun r => (pnDiv accv r.1).bind (fun d => parseTLoop n d r.2))
  | _ + 1, accv, toks => some (accv, toks)

/-- Factors: unary signs, numbers and parenthesised expressions. -/
def parseF : Nat → List FTok → Option (PyNum × List FTok)
  | 0, _ => none
  | n + 1, FTok.plus :: rest => parseF n rest
  | n + 1, FTok.minus :: rest => (parseF n rest).map (fun r => (pnNeg r.1, r.2))
  | _ + 1, FTok.num v :: rest => some (v, rest)
  | n + 1, FTok.lpar :: rest =>
    match parseE n rest with
    | some (v, FTok.rpar :: rest2) => some (v, rest2)
    | _ => none
  | _, _ => none

end

/-- eval() of a substituted arithmetic formula: the whole token list must
parse as one expression. -/
def evalArith (s : String) : Option PyNum :=
  (fTokenize (s.length + 1) s.data).bind (fun toks =>
    match parseE (3 * toks.length + 3) toks with
    | some (v, []) => some v
    | _ => none)

/-- The variable substitution loop of _evaluate_formula: every numeric
binding (ints, floats and bools) has its name textually replaced by its
stringification, in mapping order. -/
def substNumericVars (formula : String) (values : List (String × Val)) : String :=
  values.foldl
    (fun f kv =>
      match kv.2 with
      | .i z => strReplace f kv.1 (toString z)
      | .f q => strReplace f kv.1 (floatStr q)
      | .b bv => strReplace f kv.1 (if bv then "True" else "False")
      | _ => f)
    formula

/-- TemplateEngine._evaluate_formula: substitute, evaluate, and swallow any
failure into a null result (the bare except inside the helper). -/
def evalFormulaVal (formula : String) (values : List (String × Val)) : Val :=
  match evalArith (substNumericVars formula values) with
  | some (.int z) => .i z
  | some (.float q) => .f q
  | none => .null

/-- TemplateEngine._process_template: the placeholder pass over the template
section, then one assignment per calculated field (always assigned, since
the formula evaluator itself never raises). -/
def processTemplate (t : Template) (values : List (String × Val)) :
    List (String × Val) :=
  let base := match replacePlaceholdersRec (t.template.getD (.dict [])) values with
    | .dict m => m
    | _ => []
  (t.calculated_fields.getD []).foldl
    (fun acc nf => updSet acc nf.1 (evalFormulaVal nf.2 values)) base

/-- Python regex whitespace over ASCII. -/
def pyIsSpace (c : Char) : Bool :=
  c = ' ' ∨ c = '\t' ∨ c = '\n' ∨ c = '\r' ∨ c = '\x0b' ∨ c = '\x0c'

/-- Python str.strip(). -/
def pyStrip (s : List Char) : List Char :=
  ((s.dropWhile pyIsSpace).reverse.dropWhile pyIsSpace).reverse

/-- The free-text placeholder substitution: the group is stripped, and a
missing name renders as the bracketed name. -/
def phFreeAux (values : List (String × Val)) : Nat → List Char → List Char
  | 0, s => s
  | n + 1, s =>
    match findPh (s.length + 1) s with
    | none => s
    | some (pre, nm, post) =>
      let name := String.mk (pyStrip nm)
      let repl := match alook values name with
        | some v => (pyStr v).data
        | none => ('[' :: name.data) ++ [']']
      pre ++ repl ++ phFreeAux values n post

/-- First occurrence of a token inside a character list: (before, after). -/
def splitAtSub (tok : List Char) : Nat → List Char → Option (List Char × List Char)
  | 0, _ => none
  | n + 1, s =>
    if tok.isPrefixOf s then some ([], s.drop tok.length)
    else
      match s with
      | [] => none
      | c :: rest =>
        match splitAtSub tok n rest with
        | none => none
        | some (pre, post) => some (c :: pre, post)

/-- Leftmost full match of a block directive: the opener, at least one
whitespace character, a greedy name group running to the stop character,
the closer, then the non-greedy body running to the first close token.
A position where the opener appears but the rest cannot complete is skipped
one character at a time, like the regex engine.  Returns
(prefix, raw name group, body, remainder). -/
def findBlock (opener : List Char) (stopc : Char) (closerAfter closeTok : List Char) :
    Nat → List Char → Option (List Char × List Char × List Char × List Char)
  | 0, _ => none
  | _ + 1, [] => none
  | n + 1, c :: rest =>
    let fallback :=
      match findBlock opener stopc closerAfter closeTok n rest with
      | none => none
      | some (pre, nm, content, post) => some (c :: pre, nm, content, post)
    if opener.isPrefixOf (c :: rest) then
      let afterOp := (c :: rest).drop opener.length
      let combined := afterOp.takeWhile (fun x => x ≠ stopc)
      let tail := afterOp.drop combined.length
      if combined.length ≥ 2 ∧ (combined.headD stopc).isWhitespace ∧
          closerAfter.isPrefixOf tail then
        let afterClose := tail.drop closerAfter.length
        match splitAtSub closeTok (afterClose.length + 1) afterClose with
        | some (content, post) => some ([], combined, content, post)
        | none => fallback
      else fallback
    else fallback

/-- The truthiness test of the conditional blocks: the field must be present,
Python-truthy, and not equal (under Python equality) to the literal string
None, the empty string or the empty list. -/
def inExcluded : Val → Bool
  | .s str => str = "None" || str = ""
  | .list xs => xs.isEmpty
  | _ => false

/-- Whether a conditional block keeps its body for this values map. -/
def ifCondHolds (name : String) (values : List (String × Val)) : Bool :=
  match alook values name with
  | some v => pyTruthy v && !inExcluded v
  | none => false

/-- One re.sub pass over conditional blocks for a given delimiter family. -/
def ifPassGen (opener : List Char) (stopc : Char) (closerAfter closeTok : List Char)
    (values : List (String × Val)) : Nat → List Char → List Char
  | 0, s => s
  | n + 1, s =>
    match findBlock opener stopc closerAfter closeTok (s.length + 1) s with
    | none => s
    | some (pre, combined, content, post) =>
      let name := String.mk (pyStrip combined)
      pre ++ (if ifCondHolds name values then content else []) ++
        ifPassGen opener stopc closerAfter closeTok values n post

/-- Body expansion of a loop block: one copy of the body per element, both
this-forms replaced by the stringified element, joined without separator. -/
def eachExpand (content : List Char) (v : Val) : List Char :=
  match v with
  | .list xs =>
    (xs.map (fun item =>
      let itemStr := pyStr item
      (strReplace (strReplace (String.mk content) "\x7b\x7bthis\x7d\x7d" itemStr)
        "[this]" itemStr).data)).flatten
  | _ => []

/-- The replacement text of one loop block: present list values expand, a
field that is absent or not a list removes the block. -/
def eachLookup (values : List (String × Val)) (name : String)
    (content : List Char) : List Char :=
  match alook values name with
  | some (Val.list xs) => eachExpand content (Val.list xs)
  | _ => []

/-- One re.sub pass over loop blocks for a given delimiter family. -/
def eachPassGen (opener : List Char) (stopc : Char) (closerAfter closeTok : List Char)
    (values : List (String × Val)) : Nat → List Char → List Char
  | 0, s => s
  | n + 1, s =>
    match findBlock opener stopc closerAfter closeTok (s.length + 1) s with
    | none => s
    | some (pre, combined, content, post) =>
      let name := String.mk (pyStrip combined)
      pre ++ eachLookup values name content ++
        eachPassGen opener stopc closerAfter closeTok values n post


/-- The blank-line collapse: a newline followed by a whitespace run holding
at least two further newlines is replaced, up to the last newline of the
run, by exactly two newlines (the greedy backtracking match of the triple
newline pattern); scanning resumes after the match. -/
def collapseAux : Nat → List Char → List Char
  | 0, s => s
  | _ + 1, [] => []
  | n + 1, c :: rest =>
    if c = '\n' then
      let t := rest.takeWhile pyIsSpace
      if ((t.filter (fun x => x = '\n')).length ≥ 2) then
        let revIdx := t.reverse.findIdx (fun x => x = '\n')
        let lastIdx := t.length - 1 - revIdx
        '\n' :: '\n' :: collapseAux n (rest.drop (lastIdx + 1))
      else c :: collapseAux n rest
    else c :: collapseAux n rest


/-- TemplateEngine._generate_document_text: the placeholder pass first (it
rewrites the curly directives into their bracket spellings, since they match
the placeholder pattern), then conditional blocks (curly family then bracket
family), then loop blocks, then blank-line collapse and strip. -/
def generateDocumentText (reportTemplate : String) (values : List (String × Val)) :
    String :=
  let s0 := phFreeAux values (reportTemplate.length + 1) reportTemplate.data
  let s1 := ifPassGen "\x7b\x7b#if".data '\x7d' "\x7d\x7d".data
    "\x7b\x7b/if\x7d\x7d".data values (s0.length + 1) s0
  let s2 := ifPassGen "[#if".data ']' "]".data "[/if]".data values (s1.length + 1) s1
  let s3 := eachPassGen "\x7b\x7b#each".data '\x7d' "\x7d\x7d".data
    "\x7b\x7b/each\x7d\x7d".data values (s2.length + 1) s2
  let s4 := eachPassGen "[#each".data ']' "]".data "[/each]".data values
    (s3.length + 1) s3
  let s5 := collapseAux (s4.length + 1) s4
  String.mk (pyStrip s5)

/-- The two seeded generator states the engine owns: self.random and
self.np_random. -/
structure EngineState where
  py : RState
  np : RState

/-- The two ways generate_document raises a ValueError. -/
inductive GenError where
  | templateNotFound (path : String)
  | validationFailed (errors : List String)
  deriving DecidableEq, Repr

/-- The randomization-level multiplier table with its silent default. -/
def multiplierOf (lvl : String) : Rat :=
  (dlook [("conservative", (1 : Rat)/2), ("moderate", 1), ("high", 9/5)] lvl).getD 1

/-- TemplateEngine._generate_randomized_values with the multiplier already
resolved: the recursive field pass on the numpy stream, then the common and
medical placeholder passes on the python stream, merged in that order. -/
def generateRandomizedValuesM (t : Template) (patient : Patient) (mult : Rat)
    (es : EngineState) (ck : Clock) : List (String × Val) × EngineState :=
  let r := genValuesRecursive (t.template.getD (.dict [])) patient mult es.np
  let c := generateCommonPlaceholders patient ck es.py
  let m := generateMedicalContent t patient c.2
  (updMerge (updMerge r.1 c.1) m.1, { py := m.2, np := r.2 })

/-- TemplateEngine._generate_randomized_values. -/
def generateRandomizedValues (t : Template) (patient : Patient) (lvl : String)
    (es : EngineState) (ck : Clock) : List (String × Val) × EngineState :=
  generateRandomizedValuesM t patient (multiplierOf lvl) es ck

/-- generate_document with the multiplier passed explicitly; the level
string itself is used only for the metadata stamp. -/
def generateDocumentWith (store : List (String × Template)) (templatePath : String)
    (patient : Patient) (mult : Rat) (lvl : String) (es : EngineState) (ck : Clock) :
    Except GenError Val :=
  match dlook store templatePath with
  | none => .error (.templateNotFound templatePath)
  | some t =>
    if templateFalsy t then .error (.templateNotFound templatePath)
    else
      let validation := validatePatientConstraints t patient
      if ¬validation.is_valid then .error (.validationFailed validation.errors)
      else
        let vs := generateRandomizedValuesM t patient mult es ck
        let doc0 := processTemplate t vs.1
        let doc1 := match t.report_template with
          | some rt => updSet doc0 "document_text" (.s (generateDocumentText rt vs.1))
          | none => doc0
        .ok (.dict (updSet doc1 "_metadata" (.dict
          [ ("template_path", .s templatePath)
          , ("patient_id", .s patient.id)
          , ("generation_timestamp", .s ck.isoformat)
          , ("randomization_level", .s lvl) ])))

/-- TemplateEngine.generate_document: template lookup with the Python falsy
test, the constraint gate, value generation, the structured pass, the
optional free-text pass, and the metadata stamp. -/
def generateDocument (store : List (String × Template)) (templatePath : String)
    (patient : Patient) (lvl : String) (es : EngineState) (ck : Clock) :
    Except GenError Val :=
  generateDocumentWith store templatePath patient (multiplierOf lvl) lvl es ck

/-! Support lemmas. -/

theorem alook_updSet_self (m : List (String × Val)) (k : String) (v : Val) :
    alook (updSet m k v) k = some v := by
  induction m with
  | nil => simp [updSet, alook]
  | cons kv rest ih =>
    obtain ⟨k0, v0⟩ := kv
    by_cases hk : k0 = k
    · subst hk
      simp [updSet, alook]
    · simp [updSet, alook, hk, ih]

theorem alook_updSet_ne (m : List (String × Val)) (k k1 : String) (v : Val)
    (h : k1 ≠ k) : alook (updSet m k1 v) k = alook m k := by
  induction m with
  | nil => simp [updSet, alook, h]
  | cons kv rest ih =>
    obtain ⟨k0, v0⟩ := kv
    by_cases hk : k0 = k1
    · subst hk
      simp [updSet, alook, h]
    · simp [updSet, alook, hk, ih]

/-! Claim C1. -/

/-- The all-zero abstract stream, standing for one fixed seed. -/
def streamZero : RState := ⟨fun _ => 0, 0⟩

/-- The uuid supply of one run. -/
def uuidRunA : Nat → String := fun _ => "aaaaaaaa"

/-- The uuid supply of a second run with the same seed. -/
def uuidRunB : Nat → String := fun _ => "bbbbbbbb"

/-- A patient with the id cleared, for comparing everything but the id. -/
def stripPatientId (p : Patient) : Patient :=
  { p with id := "" }

/-- The generation timestamp recorded in a generation outcome, when any. -/
def docTimestamp (r : Except GenError Val) : Option String :=
  match r with
  | .ok d => ((d.get "_metadata").bind (fun m => m.get "generation_timestamp")).bind valAsStr
  | .error _ => none

/-- Claim C1, counterexample: two runs from the same seed stream but with
the (unseeded) uuid source returning different values produce different
patient lists — the ids differ — so identical inputs do not give
byte-identical patient lists. -/
theorem generation_not_byte_identical_across_runs :
    (generatePatients 1 uuidRunA streamZero).1 ≠ (generatePatients 1 uuidRunB streamZero).1 := by
  intro h
  have hid := congrArg (fun l => l.map Patient.id) h
  exact absurd hid (by decide)

/-- Claim C1, amended: holding the seeded stream fixed, generated patients
agree on gender, age, conditions and medications whatever the uuid source
returns (only the id differs), and every successfully generated document
carries the external wall-clock reading in its metadata timestamp, so
byte-identity additionally requires fixing the uuid source and the clock. -/
theorem generation_deterministic_modulo_uuid_and_clock :
    (∀ (us vs : Nat → String) (count : Nat) (st : RState),
      (generatePatients count us st).1.map stripPatientId =
        (generatePatients count vs st).1.map stripPatientId) ∧
    (∀ store path patient lvl es ck,
      docTimestamp (generateDocument store path patient lvl es ck) =
        (if (generateDocument store path patient lvl es ck).isOk
          then some (Clock.isoformat ck) else none)) := by
  constructor
  · intro us vs count st
    suffices h : ∀ (count i : Nat) (st : RState),
        (generatePatientsGo us count i st).1.map stripPatientId =
          (generatePatientsGo vs count i st).1.map stripPatientId by
      exact h count 0 st
    intro count
    induction count with
    | zero => intro i st; rfl
    | succ k ih =>
      intro i st
      have hhead : stripPatientId (generateSinglePatient (us i) st).1 =
          stripPatientId (generateSinglePatient (vs i) st).1 := rfl
      have hstate : (generateSinglePatient (us i) st).2 =
          (generateSinglePatient (vs i) st).2 := rfl
      simp only [generatePatientsGo, List.map]
      rw [hhead, hstate, ih]
  · intro store path patient lvl es ck
    simp only [generateDocument, generateDocumentWith]
    cases hl : dlook store path with
    | none => simp [docTimestamp, Except.isOk, Except.toBool]
    | some t =>
      cases hf : templateFalsy t with
      | true => simp [hf, docTimestamp, Except.isOk, Except.toBool]
      | false =>
        cases hv : (validatePatientConstraints t patient).is_valid with
        | false => simp [hf, hv, docTimestamp, Except.isOk, Except.toBool]
        | true =>
          simp [hf, hv, docTimestamp, Except.isOk, Except.toBool, Val.get,
            alook_updSet_self, alook, valAsStr]

/-! Claim C2. -/

/-- A field spec with an integer base mean, zero spread and critical values
low 2.6, high 2.9. -/
def specC2 : Val := .dict
  [ ("randomization", .dict [("mean", .i 3), ("std", .i 0)])
  , ("critical_values", .dict [("low", .f (13/5)), ("high", .f (29/10))]) ]

/-- A demographic-modifier-free patient. -/
def patC2 : Patient := ⟨"P0", "male", 40, [], []⟩

/-- Claim C2, counterexample: the draw 3 is clipped to the ceiling 2.9, but
the final integer rounding (the base mean is an int) returns 3, which lies
outside the declared interval, so the synthesized value is not always inside
the closed critical interval. -/
theorem value_rounds_outside_critical_interval :
    critLow specC2 = some (13/5) ∧ critHigh specC2 = some (29/10) ∧
    (generateSingleValue specC2 patC2 1 streamZero).1 = Val.i 3 ∧
    ¬((13/5 : Rat) ≤ 3 ∧ (3 : Rat) ≤ 29/10) := by
  refine ⟨rfl, rfl, ?_, by norm_num⟩
  simp [generateSingleValue, genSingleValueCore, specC2, patC2, streamZero,
    Val.getD, Val.get, alook, valAsStr, valAsRat, valIsInt, normalDraw, zDraw,
    RState.next, Option.getD, Option.bind, pyRound, applyDiseaseScan]
  norm_num [max_def, min_def, Rat.floor_def']

/-- Claim C2, amended: the synthesized value lies in the declared interval
[low, high] before the final rounding step, whenever low ≤ high; the
rounding to integer or to two decimals may then leave the interval by up to
half a rounding unit. -/
theorem clipped_value_within_bounds (fieldSpec : Val) (patient : Patient)
    (mult : Rat) (np : RState) (lo hi : Rat)
    (hlo : critLow fieldSpec = some lo) (hhi : critHigh fieldSpec = some hi)
    (hle : lo ≤ hi) :
    lo ≤ (genSingleValueCore fieldSpec patient mult np).1 ∧
      (genSingleValueCore fieldSpec patient mult np).1 ≤ hi := by
  obtain ⟨lv, hlv, hlv2⟩ := Option.bind_eq_some.mp hlo
  obtain ⟨hv, hhv, hhv2⟩ := Option.bind_eq_some.mp hhi
  simp only [genSingleValueCore, hlv, hhv, hlv2, hhv2, Option.getD_some]
  exact ⟨le_min (le_max_right _ _) hle, min_le_right _ _⟩

/-- Witness for the amended C2 at the concrete spec. -/
theorem clipped_value_within_bounds_witness :
    critLow specC2 = some (13/5) ∧ critHigh specC2 = some (29/10) ∧
    ((13 : Rat)/5 ≤ 29/10) ∧
    ((13/5 : Rat) ≤ (genSingleValueCore specC2 patC2 1 streamZero).1 ∧
      (genSingleValueCore specC2 patC2 1 streamZero).1 ≤ 29/10) :=
  ⟨rfl, rfl, by norm_num,
    clipped_value_within_bounds specC2 patC2 1 streamZero (13/5) (29/10) rfl rfl
      (by norm_num)⟩

/-! Claim C3. -/

theorem alook_foldl_updSet_outside (l : List (String × String)) (g : String → Val)
    (acc : List (String × Val)) (k : String) (hk : k ∉ l.map Prod.fst) :
    alook (l.foldl (fun acc nf => updSet acc nf.1 (g nf.2)) acc) k = alook acc k := by
  induction l generalizing acc with
  | nil => rfl
  | cons nf rest ih =>
    simp only [List.map_cons, List.mem_cons, not_or] at hk
    simp only [List.foldl_cons]
    rw [ih _ hk.2, alook_updSet_ne _ _ _ _ (Ne.symm hk.1)]

theorem alook_foldl_updSet_mem (l : List (String × String)) (g : String → Val)
    (acc : List (String × Val)) (name formula : String)
    (hmem : (name, formula) ∈ l) (hnd : (l.map Prod.fst).Nodup) :
    alook (l.foldl (fun acc nf => updSet acc nf.1 (g nf.2)) acc) name =
      some (g formula) := by
  induction l generalizing acc with
  | nil => cases hmem
  | cons nf rest ih =>
    simp only [List.map_cons, List.nodup_cons] at hnd
    rcases List.mem_cons.mp hmem with heq | hmem2
    · cases heq
      simp only [List.foldl_cons]
      rw [alook_foldl_updSet_outside _ _ _ _ hnd.1]
      exact alook_updSet_self _ _ _
    · simp only [List.foldl_cons]
      exact ih _ hmem2 hnd.2

/-- A template whose single calculated field has an unparseable formula. -/
def templateC3 : Template :=
  { constraints := none, template := none, condition_templates := none
  , calculated_fields := some [("bmi_calc", "weight_val /")]
  , report_template := none, randomization := none }

/-- Claim C3, counterexample: the formula fails to evaluate, yet the field
is present in the generated document with a null value — the name is a key
of the result — because the helper swallows the failure and returns None
before the warning-printing handler can fire. -/
theorem failing_formula_field_still_present :
    evalArith (substNumericVars "weight_val /" [("weight_val", Val.i 7)]) = none ∧
    alook (processTemplate templateC3 [("weight_val", Val.i 7)]) "bmi_calc" =
      some Val.null :=
  ⟨rfl, rfl⟩

/-- Claim C3, amended: every declared calculated field is present in the
processed document; its value is null exactly when the substituted formula
fails to evaluate, and the arithmetic result otherwise.  No warning is
emitted on failure, since the inner handler returns None instead of
raising. -/
theorem calculated_field_always_present (t : Template)
    (values : List (String × Val)) (name formula : String)
    (hmem : (name, formula) ∈ t.calculated_fields.getD [])
    (hnd : ((t.calculated_fields.getD []).map Prod.fst).Nodup) :
    alook (processTemplate t values) name = some (evalFormulaVal formula values) ∧
    (evalFormulaVal formula values = Val.null ↔
      evalArith (substNumericVars formula values) = none) := by
  constructor
  · simp only [processTemplate]
    exact alook_foldl_updSet_mem _ (fun f => evalFormulaVal f values) _ name formula
      hmem hnd
  · unfold evalFormulaVal
    cases evalArith (substNumericVars formula values) with
    | none => simp
    | some pn => cases pn <;> simp

/-- Witness for the amended C3 at the concrete failing template. -/
theorem calculated_field_always_present_witness :
    (("bmi_calc", "weight_val /") ∈ templateC3.calculated_fields.getD []) ∧
    alook (processTemplate templateC3 [("weight_val", Val.i 7)]) "bmi_calc" =
      some (evalFormulaVal "weight_val /" [("weight_val", Val.i 7)]) :=
  ⟨by simp [templateC3],
    (calculated_field_always_present templateC3 [("weight_val", Val.i 7)]
      "bmi_calc" "weight_val /" (by simp [templateC3]) (by simp [templateC3])).1⟩

/-! Claim C4. -/

/-- A field spec declaring the diabetes override before the hypertension
override, with zero spread so the applied mean is observable. -/
def specC4 : Val := .dict
  [ ("randomization", .dict
      [ ("mean", .i 0), ("std", .i 0)
      , ("disease_modifiers", .dict
          [ ("diabetes", .dict [("mean", .i 10)])
          , ("hypertension", .dict [("mean", .i 20)]) ]) ]) ]

/-- A patient whose stored condition order is the reverse of the declared
override order. -/
def patC4 : Patient := ⟨"P4", "male", 40, ["hypertension", "diabetes"], []⟩

/-- Modelled from the claim's wording (not the code): the override of the
first condition in template-declared order that matches some patient
condition. -/
def declaredOrderDiseaseMod (mods : Val) (conds : List String) :
    Option (String × Val) :=
  match mods with
  | .dict entries => entries.find? (fun e => conds.contains e.1)
  | _ => none

/-- Claim C4, counterexample: the value synthesizer applies the
hypertension override (first in the patient's stored order, mean 20), while
the first matching override in template-declared order is the diabetes one
(mean 10) — so the declared order does not decide the winner. -/
theorem disease_override_not_template_order :
    (generateSingleValue specC4 patC4 1 streamZero).1 = Val.i 20 ∧
    declaredOrderDiseaseMod
        ((specC4.getD "randomization" (.dict [])).getD "disease_modifiers" (.dict []))
        patC4.conditions = some ("diabetes", .dict [("mean", .i 10)]) ∧
    Val.i 20 ≠ Val.i 10 := by
  refine ⟨?_, rfl, by simp⟩
  simp [generateSingleValue, genSingleValueCore, specC4, patC4, streamZero,
    Val.getD, Val.get, alook, valAsStr, valAsRat, valIsInt, normalDraw, zDraw,
    RState.next, Option.getD, Option.bind, pyRound, applyDiseaseScan, applyMod]
  norm_num [Rat.floor_def']

/-- The scan with break only sees the first patient-order match. -/
theorem applyDiseaseScan_first (mods : Val) (conds : List String) (c : String)
    (h : firstDiseaseMatch mods conds = some c) (ms : Rat × Rat) (mult : Rat) :
    applyDiseaseScan mods conds ms mult = applyDiseaseScan mods [c] ms mult := by
  induction conds with
  | nil => simp [firstDiseaseMatch] at h
  | cons d rest ih =>
    rcases hd : mods.get d with _ | dm
    · have hd2 : ((mods.get d).isSome = false) := by simp [hd]
      have h2 : firstDiseaseMatch mods rest = some c := by
        simpa [firstDiseaseMatch, List.find?, hd2] using h
      simpa [applyDiseaseScan, hd] using ih h2
    · have hd2 : ((mods.get d).isSome = true) := by simp [hd]
      have hc : c = d := by
        have := h
        simp [firstDiseaseMatch, List.find?, hd2] at this
        exact this.symm
      subst hc
      simp [applyDiseaseScan, hd]

/-- Claim C4, amended: the applied override is that of the first matching
condition in the order of the patient's stored condition list, and no later
condition can influence the result: the synthesized value is unchanged if
the patient's conditions are replaced by just that first match. -/
theorem disease_override_first_patient_match (fieldSpec : Val) (patient : Patient)
    (mult : Rat) (np : RState) (c : String)
    (h : firstDiseaseMatch
        ((fieldSpec.getD "randomization" (.dict [])).getD "disease_modifiers" (.dict []))
        patient.conditions = some c) :
    generateSingleValue fieldSpec patient mult np =
      generateSingleValue fieldSpec { patient with conditions := [c] } mult np := by
  simp only [generateSingleValue, genSingleValueCore]
  rw [applyDiseaseScan_first _ _ _ h]

/-- Witness for the amended C4: the first patient-order match for the
counterexample patient is hypertension. -/
theorem disease_override_first_patient_match_witness :
    firstDiseaseMatch
        ((specC4.getD "randomization" (.dict [])).getD "disease_modifiers" (.dict []))
        patC4.conditions = some "hypertension" ∧
    generateSingleValue specC4 patC4 1 streamZero =
      generateSingleValue specC4 { patC4 with conditions := ["hypertension"] } 1
        streamZero :=
  ⟨rfl, disease_override_first_patient_match specC4 patC4 1 streamZero
    "hypertension" rfl⟩

/-! Claim C5. -/

/-- The stream function under which the 0.8 target draw fails, asthma is
selected by the prevalence pass, and everything else fails. -/
def c5f : Nat → Nat := fun i =>
  match i with
  | 0 => 900000
  | 1 => 500000
  | 2 => 500000
  | 3 => 10000
  | 6 => 900000
  | _ => 500000

/-- The counterexample stream for the force-add claim. -/
def streamC5 : RState := ⟨c5f, 0⟩

/-- The all-0.95 stream function: no condition is ever selected. -/
def hif : Nat → Nat := fun _ => 950000

/-- A stream under which every draw is 0.95. -/
def streamHi : RState := ⟨hif, 0⟩

/-- Stepwise evaluation of the probabilistic phase under streamC5. -/
theorem probPhase_streamC5 :
    generateConditionsProb 25 "male" ["diabetes"] streamC5 =
      (["asthma"], RState.mk c5f 8) := by
  have h0 : List.foldl targetStep ([], streamC5) ["diabetes"] =
      ([], RState.mk c5f 1) := by
    norm_num [targetStep, dlook, conditionsData, randFloat, RState.next, streamC5, c5f]
  have h1 : condStep 25 "male" ([], RState.mk c5f 1) ("diabetes", dDiabetes) =
      ([], RState.mk c5f 2) := by
    simp [condStep, dDiabetes, ageWeightOf, dlook, interactionWeight, randFloat,
      RState.next, c5f, min_def]
    norm_num
  have h2 : condStep 25 "male" ([], RState.mk c5f 2) ("hypertension", dHypertension) =
      ([], RState.mk c5f 3) := by
    simp [condStep, dHypertension, ageWeightOf, dlook, interactionWeight, randFloat,
      RState.next, c5f, min_def]
    norm_num
  have h3 : condStep 25 "male" ([], RState.mk c5f 3) ("asthma", dAsthma) =
      (["asthma"], RState.mk c5f 4) := by
    simp [condStep, dAsthma, ageWeightOf, dlook, interactionWeight, randFloat,
      RState.next, c5f, min_def]
    norm_num
  have h4 : condStep 25 "male" (["asthma"], RState.mk c5f 4) ("copd", dCopd) =
      (["asthma"], RState.mk c5f 5) := by
    simp [condStep, dCopd, ageWeightOf, dlook, interactionWeight, randFloat,
      RState.next, c5f, min_def]
    norm_num
  have h5 : condStep 25 "male" (["asthma"], RState.mk c5f 5)
      ("heart_disease", dHeartDisease) = (["asthma"], RState.mk c5f 6) := by
    simp [condStep, dHeartDisease, ageWeightOf, dlook, interactionWeight, randFloat,
      RState.next, c5f, min_def]
    norm_num
  have h6 : condStep 25 "male" (["asthma"], RState.mk c5f 6) ("obesity", dObesity) =
      (["asthma"], RState.mk c5f 7) := by
    simp [condStep, dObesity, ageWeightOf, dlook, interactionWeight, randFloat,
      RState.next, c5f, min_def]
    norm_num
  have h7 : condStep 25 "male" (["asthma"], RState.mk c5f 7)
      ("colon_cancer", dColonCancer) = (["asthma"], RState.mk c5f 8) := by
    simp [condStep, dColonCancer, ageWeightOf, dlook, interactionWeight, randFloat,
      RState.next, c5f, min_def]
    norm_num
  rw [show generateConditionsProb 25 "male" ["diabetes"] streamC5 =
      conditionsData.foldl (condStep 25 "male")
        (List.foldl targetStep ([], streamC5) ["diabetes"]) from rfl]
  rw [h0, conditionsData]
  rw [List.foldl_cons, h1, List.foldl_cons, h2, List.foldl_cons, h3,
    List.foldl_cons, h4, List.foldl_cons, h5, List.foldl_cons, h6,
    List.foldl_cons, h7, List.foldl_nil]

/-- Stepwise evaluation of the probabilistic phase under streamHi. -/
theorem probPhase_streamHi :
    generateConditionsProb 25 "male" ["diabetes"] streamHi =
      ([], RState.mk hif 8) := by
  have h0 : List.foldl targetStep ([], streamHi) ["diabetes"] =
      ([], RState.mk hif 1) := by
    norm_num [targetStep, dlook, conditionsData, randFloat, RState.next, streamHi, hif]
  have h1 : condStep 25 "male" ([], RState.mk hif 1) ("diabetes", dDiabetes) =
      ([], RState.mk hif 2) := by
    simp [condStep, dDiabetes, ageWeightOf, dlook, interactionWeight, randFloat,
      RState.next, hif, min_def]
    norm_num
  have h2 : condStep 25 "male" ([], RState.mk hif 2) ("hypertension", dHypertension) =
      ([], RState.mk hif 3) := by
    simp [condStep, dHypertension, ageWeightOf, dlook, interactionWeight, randFloat,
      RState.next, hif, min_def]
    norm_num
  have h3 : condStep 25 "male" ([], RState.mk hif 3) ("asthma", dAsthma) =
      ([], RState.mk hif 4) := by
    simp [condStep, dAsthma, ageWeightOf, dlook, interactionWeight, randFloat,
      RState.next, hif, min_def]
    norm_num
  have h4 : condStep 25 "male" ([], RState.mk hif 4) ("copd", dCopd) =
      ([], RState.mk hif 5) := by
    simp [condStep, dCopd, ageWeightOf, dlook, interactionWeight, randFloat,
      RState.next, hif, min_def]
    norm_num
  have h5 : condStep 25 "male" ([], RState.mk hif 5)
      ("heart_disease", dHeartDisease) = ([], RState.mk hif 6) := by
    simp [condStep, dHeartDisease, ageWeightOf, dlook, interactionWeight, randFloat,
      RState.next, hif, min_def]
    norm_num
  have h6 : condStep 25 "male" ([], RState.mk hif 6) ("obesity", dObesity) =
      ([], RState.mk hif 7) := by
    simp [condStep, dObesity, ageWeightOf, dlook, interactionWeight, randFloat,
      RState.next, hif, min_def]
    norm_num
  have h7 : condStep 25 "male" ([], RState.mk hif 7)
      ("colon_cancer", dColonCancer) = ([], RState.mk hif 8) := by
    simp [condStep, dColonCancer, ageWeightOf, dlook, interactionWeight, randFloat,
      RState.next, hif, min_def]
    norm_num
  rw [show generateConditionsProb 25 "male" ["diabetes"] streamHi =
      conditionsData.foldl (condStep 25 "male")
        (List.foldl targetStep ([], streamHi) ["diabetes"]) from rfl]
  rw [h0, conditionsData]
  rw [List.foldl_cons, h1, List.foldl_cons, h2, List.foldl_cons, h3,
    List.foldl_cons, h4, List.foldl_cons, h5, List.foldl_cons, h6,
    List.foldl_cons, h7, List.foldl_nil]

/-- Claim C5, counterexample: diabetes was requested and not selected, yet
because the probabilistic pass selected asthma the conditions list is
non-empty and no target is force-added: the patient ends without any
requested target condition. -/
theorem requested_target_can_be_absent :
    (generateConditions 25 "male" ["diabetes"] streamC5).1 = ["asthma"] ∧
    "diabetes" ∉ (generateConditions 25 "male" ["diabetes"] streamC5).1 := by
  have h : (generateConditions 25 "male" ["diabetes"] streamC5).1 = ["asthma"] := by
    simp only [generateConditions, probPhase_streamC5]
    norm_num
  refine ⟨h, ?_⟩
  rw [h]
  simp

/-- Claim C5, amended: the force-add fires only when the probabilistic
phase produced no conditions at all; in that case exactly one uniformly
chosen requested target is appended. -/
theorem force_add_only_on_empty_conditions (age : Int) (gender : String)
    (targets : List String) (st : RState) (hne : targets ≠ [])
    (hempty : (generateConditionsProb age gender targets st).1 = []) :
    ∃ chosen,
      (generateConditions age gender targets st).1 = [chosen] ∧ chosen ∈ targets := by
  have hlen : 0 < targets.length := List.length_pos.mpr hne
  have hni : ¬targets.isEmpty := by
    simp [List.isEmpty_iff, hne]
  refine ⟨(choiceD "" targets (generateConditionsProb age gender targets st).2).1,
    ?_, ?_⟩
  · simp [generateConditions, hempty, hni, choiceD]
  · simp only [choiceD]
    have hmod : ((generateConditionsProb age gender targets st).2.next.1 % targets.length)
        < targets.length := Nat.mod_lt _ hlen
    rw [List.getD_eq_getElem _ _ hmod]
    exact List.getElem_mem _

/-- Witness for the amended C5: with every draw at 0.95 nothing is
selected and the single target is force-added. -/
theorem force_add_only_on_empty_conditions_witness :
    (["diabetes"] ≠ ([] : List String)) ∧
    (generateConditionsProb 25 "male" ["diabetes"] streamHi).1 = [] ∧
    ∃ chosen, (generateConditions 25 "male" ["diabetes"] streamHi).1 = [chosen] ∧
      chosen ∈ ["diabetes"] := by
  have hempty : (generateConditionsProb 25 "male" ["diabetes"] streamHi).1 = [] := by
    rw [probPhase_streamHi]
  exact ⟨by simp, hempty,
    force_add_only_on_empty_conditions 25 "male" ["diabetes"] streamHi (by simp) hempty⟩

/-! Claim C6. -/

/-- A template parsed from an empty source: no keys at all, hence falsy. -/
def emptyTemplate : Template := ⟨none, none, none, none, none, none⟩

/-- An unconstrained patient. -/
def patC6 : Patient := ⟨"P1", "male", 40, [], []⟩

/-- Concrete engine streams for the gate witness. -/
def esC6 : EngineState := ⟨⟨fun _ => 0, 0⟩, ⟨fun _ => 0, 0⟩⟩

/-- A concrete clock for the gate witness. -/
def ckC6 : Clock :=
  ⟨2025, "2025-01-01T00:00:00", fun _ => "2025-01-01", fun _ => "January 01, 2025"⟩

/-- Well-formedness of the template-level randomization rules: every rule
with a values list has a non-empty one.  The embedded engine is total; on a
rule with an empty values list the Python engine would raise an IndexError
unrelated to validation, so the gate equivalence is scoped to this class. -/
def templateRulesWF (t : Template) : Bool :=
  (t.randomization.getD []).all (fun fr =>
    match fr.2.values with
    | some vals => !vals.isEmpty
    | none => true)

/-- Claim C6, counterexample: an empty template stored under a present path
validates successfully against any patient, yet generation raises the
template-not-found error, because generate_document tests Python falsiness
of the template value rather than absence of the path from the store. -/
theorem stored_empty_template_rejected :
    dlook [("p", emptyTemplate)] "p" = some emptyTemplate ∧
    (validatePatientConstraints emptyTemplate patC6).is_valid = true ∧
    generateDocument [("p", emptyTemplate)] "p" patC6 "moderate" esC6 ckC6 =
      .error (.templateNotFound "p") :=
  ⟨rfl, rfl, rfl⟩

/-- Claim C6, amended: validity is exactly absence of errors; an age outside
a declared inclusive range invalidates; each missing required condition
invalidates; a non-empty relevant list with no patient match yields exactly
one warning but never by itself invalidates; and generation fails exactly
when the path is absent from the store, the stored template is empty
(falsy), or validation fails — for templates whose randomization rules are
well-formed. -/
theorem validation_rules_and_generation_gate (t : Template) (p : Patient)
    (store : List (String × Template)) (path : String) (patient : Patient)
    (lvl : String) (es : EngineState) (ck : Clock)
    (hwf : ∀ t0, dlook store path = some t0 → templateRulesWF t0 = true) :
    ((validatePatientConstraints t p).is_valid = true ↔
      (validatePatientConstraints t p).errors = []) ∧
    (∀ lo hi,
      (t.constraints.getD ⟨none, none, none, none⟩).age_range = some (lo, hi) →
      ¬(lo ≤ p.age ∧ p.age ≤ hi) →
      (validatePatientConstraints t p).is_valid = false) ∧
    (∀ rc,
      rc ∈ (t.constraints.getD ⟨none, none, none, none⟩).required_conditions.getD [] →
      rc ∉ p.conditions → (validatePatientConstraints t p).is_valid = false) ∧
    ((¬((t.constraints.getD ⟨none, none, none, none⟩).conditions_relevant.getD []).isEmpty ∧
      (∀ rc ∈ (t.constraints.getD ⟨none, none, none, none⟩).conditions_relevant.getD [],
        rc ∉ p.conditions)) →
      (validatePatientConstraints t p).warnings.length = 1) ∧
    (ageErrors (t.constraints.getD ⟨none, none, none, none⟩) p = [] →
      requiredErrors (t.constraints.getD ⟨none, none, none, none⟩) p = [] →
      (validatePatientConstraints t p).is_valid = true) ∧
    ((generateDocument store path patient lvl es ck).isOk = true ↔
      ∃ t0, dlook store path = some t0 ∧ templateFalsy t0 = false ∧
        (validatePatientConstraints t0 patient).is_valid = true) := by
  refine ⟨?_, ?_, ?_, ?_, ?_, ?_⟩
  · simp [validatePatientConstraints, List.isEmpty_iff]
  · intro lo hi hr hout
    simp [validatePatientConstraints, ageErrors, hr, hout]
  · intro rc hmem hnot
    have hne : requiredErrors (t.constraints.getD ⟨none, none, none, none⟩) p ≠ [] := by
      apply List.ne_nil_of_mem (a :=
        "Required condition \x27" ++ rc ++ "\x27 not found in patient")
      exact List.mem_filterMap.mpr ⟨rc, hmem, by simp [hnot]⟩
    simp [validatePatientConstraints, List.isEmpty_iff, hne]
  · intro hrel
    have hany :
        ((t.constraints.getD ⟨none, none, none, none⟩).conditions_relevant.getD []).any
          (fun cond => cond ∈ p.conditions) = false := by
      rw [List.any_eq_false]
      intro rc hm
      simpa using hrel.2 rc hm
    simp [validatePatientConstraints, relevantWarnings, hrel.1, hany]
  · intro hage hreq
    simp [validatePatientConstraints, hage, hreq]
  · simp only [generateDocument, generateDocumentWith]
    cases hl : dlook store path with
    | none => simp [Except.isOk, Except.toBool]
    | some t0 =>
      cases hf : templateFalsy t0 with
      | true => simp [hf, Except.isOk, Except.toBool]
      | false =>
        cases hv : (validatePatientConstraints t0 patient).is_valid with
        | false => simp [hf, hv, Except.isOk, Except.toBool]
        | true => simp [hf, hv, Except.isOk, Except.toBool]

/-- Witness for the amended C6 at a concrete store and patient. -/
theorem validation_rules_and_generation_gate_witness :
    (validatePatientConstraints emptyTemplate patC6).is_valid = true ↔
      (validatePatientConstraints emptyTemplate patC6).errors = [] :=
  (validation_rules_and_generation_gate emptyTemplate patC6 [("p", emptyTemplate)]
    "p" patC6 "moderate" esC6 ckC6 (fun t0 h => by
      simp [dlook] at h
      subst h
      rfl)).1

/-! Claim C7. -/

/-- Claim C7, counterexample: the value 0 is present under the tested name
and is none of the claim's excluded values (empty string, empty list, the
token None), yet the block body is removed, because the code also requires
Python truthiness and numeric zero is falsy. -/
theorem conditional_block_drops_numeric_zero :
    generateDocumentText "A\x7b\x7b#if x\x7d\x7dB\x7b\x7b/if\x7d\x7dC" [("x", Val.i 0)] =
      "AC" ∧
    alook [("x", Val.i 0)] "x" = some (Val.i 0) ∧
    Val.i 0 ≠ Val.s "" ∧ Val.i 0 ≠ Val.s "None" ∧ Val.i 0 ≠ Val.list [] ∧
    "AC" ≠ "ABC" :=
  ⟨rfl, rfl, by simp, by simp, by simp, by decide⟩

/-- Claim C7, amended: the conditional block keeps its body exactly when the
tested value is Python-truthy and not equal to the literal string None (so
numeric zero, false and other falsy values also drop the block), for both
the curly and the bracket spelling of the directive. -/
theorem conditional_block_truthiness (v : Val) :
    generateDocumentText "A\x7b\x7b#if x\x7d\x7dB\x7b\x7b/if\x7d\x7dC" [("x", v)] =
      (if pyTruthy v && !inExcluded v then "ABC" else "AC") ∧
    generateDocumentText "A[#if x]B[/if]C" [("x", v)] =
      (if pyTruthy v && !inExcluded v then "ABC" else "AC") := by
  have hc : ifCondHolds "x" [("x", v)] = (pyTruthy v && !inExcluded v) := rfl
  cases hb : (pyTruthy v && !inExcluded v) with
  | false =>
    constructor
    · simp only [generateDocumentText]
      rw [show phFreeAux [("x", v)]
          ("A\x7b\x7b#if x\x7d\x7dB\x7b\x7b/if\x7d\x7dC".length + 1)
          "A\x7b\x7b#if x\x7d\x7dB\x7b\x7b/if\x7d\x7dC".data = "A[#if x]B[/if]C".data
          from rfl]
      rw [show ifPassGen "\x7b\x7b#if".data '\x7d' "\x7d\x7d".data
          "\x7b\x7b/if\x7d\x7d".data [("x", v)]
          ("A[#if x]B[/if]C".data.length + 1) "A[#if x]B[/if]C".data =
          "A[#if x]B[/if]C".data from rfl]
      rw [show ifPassGen "[#if".data ']' "]".data "[/if]".data [("x", v)]
          ("A[#if x]B[/if]C".data.length + 1) "A[#if x]B[/if]C".data =
          "A".data ++ (if ifCondHolds "x" [("x", v)] then "B".data else []) ++ "C".data
          from rfl]
      rw [show ifCondHolds "x" [("x", v)] = false from hc.trans hb]
      rfl
    · simp only [generateDocumentText]
      rw [show phFreeAux [("x", v)] ("A[#if x]B[/if]C".length + 1)
          "A[#if x]B[/if]C".data = "A[#if x]B[/if]C".data from rfl]
      rw [show ifPassGen "\x7b\x7b#if".data '\x7d' "\x7d\x7d".data
          "\x7b\x7b/if\x7d\x7d".data [("x", v)]
          ("A[#if x]B[/if]C".data.length + 1) "A[#if x]B[/if]C".data =
          "A[#if x]B[/if]C".data from rfl]
      rw [show ifPassGen "[#if".data ']' "]".data "[/if]".data [("x", v)]
          ("A[#if x]B[/if]C".data.length + 1) "A[#if x]B[/if]C".data =
          "A".data ++ (if ifCondHolds "x" [("x", v)] then "B".data else []) ++ "C".data
          from rfl]
      rw [show ifCondHolds "x" [("x", v)] = false from hc.trans hb]
      rfl
  | true =>
    constructor
    · simp only [generateDocumentText]
      rw [show phFreeAux [("x", v)]
          ("A\x7b\x7b#if x\x7d\x7dB\x7b\x7b/if\x7d\x7dC".length + 1)
          "A\x7b\x7b#if x\x7d\x7dB\x7b\x7b/if\x7d\x7dC".data = "A[#if x]B[/if]C".data
          from rfl]
      rw [show ifPassGen "\x7b\x7b#if".data '\x7d' "\x7d\x7d".data
          "\x7b\x7b/if\x7d\x7d".data [("x", v)]
          ("A[#if x]B[/if]C".data.length + 1) "A[#if x]B[/if]C".data =
          "A[#if x]B[/if]C".data from rfl]
      rw [show ifPassGen "[#if".data ']' "]".data "[/if]".data [("x", v)]
          ("A[#if x]B[/if]C".data.length + 1) "A[#if x]B[/if]C".data =
          "A".data ++ (if ifCondHolds "x" [("x", v)] then "B".data else []) ++ "C".data
          from rfl]
      rw [show ifCondHolds "x" [("x", v)] = true from hc.trans hb]
      rfl
    · simp only [generateDocumentText]
      rw [show phFreeAux [("x", v)] ("A[#if x]B[/if]C".length + 1)
          "A[#if x]B[/if]C".data = "A[#if x]B[/if]C".data from rfl]
      rw [show ifPassGen "\x7b\x7b#if".data '\x7d' "\x7d\x7d".data
          "\x7b\x7b/if\x7d\x7d".data [("x", v)]
          ("A[#if x]B[/if]C".data.length + 1) "A[#if x]B[/if]C".data =
          "A[#if x]B[/if]C".data from rfl]
      rw [show ifPassGen "[#if".data ']' "]".data "[/if]".data [("x", v)]
          ("A[#if x]B[/if]C".data.length + 1) "A[#if x]B[/if]C".data =
          "A".data ++ (if ifCondHolds "x" [("x", v)] then "B".data else []) ++ "C".data
          from rfl]
      rw [show ifCondHolds "x" [("x", v)] = true from hc.trans hb]
      rfl

/-! Claim C8. -/

theorem collapseAux_no_newline (n : Nat) (s : List Char)
    (h : ∀ c ∈ s, c ≠ '\n') : collapseAux n s = s := by
  induction n generalizing s with
  | zero => rfl
  | succ k ih =>
    cases s with
    | nil => rfl
    | cons c rest =>
      have hc : c ≠ '\n' := h c (List.mem_cons_self c rest)
      simp only [collapseAux, if_neg hc]
      rw [ih rest (fun d hd => h d (List.mem_cons_of_mem c hd))]

theorem pyStrip_eq_self (s : List Char)
    (h1 : ∀ c, s.head? = some c → pyIsSpace c = false)
    (h2 : ∀ c, s.getLast? = some c → pyIsSpace c = false) : pyStrip s = s := by
  cases s with
  | nil => rfl
  | cons a t =>
    have ha : pyIsSpace a = false := h1 a rfl
    unfold pyStrip
    rw [List.dropWhile_cons_of_neg (by simp [ha])]
    obtain ⟨b, rest, hr⟩ : ∃ b rest, (a :: t).reverse = b :: rest := by
      cases hrev : (a :: t).reverse with
      | nil => exact absurd hrev (by simp)
      | cons b rest => exact ⟨b, rest, rfl⟩
    have hb : (a :: t).getLast? = some b := by
      rw [← List.head?_reverse, hr]
      rfl
    have hbs : pyIsSpace b = false := h2 b hb
    rw [hr, List.dropWhile_cons_of_neg (by simp [hbs]), ← hr, List.reverse_reverse]

theorem bracket_pieces_last (l : List String) (hl : l ≠ []) :
    ((l.map (fun s => '[' :: (s.data ++ [']']))).flatten).getLast? = some ']' := by
  induction l with
  | nil => exact absurd rfl hl
  | cons s rest ih =>
    cases rest with
    | nil =>
      show (('[' :: (s.data ++ [']'])) ++ []).getLast? = some ']'
      rw [List.append_nil, show '[' :: (s.data ++ [']']) = ('[' :: s.data) ++ [']']
        from rfl]
      exact List.getLast?_concat _
    | cons r rs =>
      have hne : ((List.map (fun s => '[' :: (s.data ++ [']'])) (r :: rs)).flatten) ≠ [] := by
        simp [List.flatten]
      show (('[' :: (s.data ++ [']'])) ++
          (List.map (fun s => '[' :: (s.data ++ [']'])) (r :: rs)).flatten).getLast? =
        some ']'
      rw [List.getLast?_append_of_ne_nil _ hne]
      exact ih (by simp)

theorem bracket_pieces_join (l : List String) :
    String.mk ((l.map (fun s => '[' :: (s.data ++ [']']))).flatten) =
      (l.map (fun s => "[" ++ s ++ "]")).foldr (fun a b => a ++ b) "" := by
  induction l with
  | nil => rfl
  | cons s rest ih =>
    show String.mk (('[' :: (s.data ++ [']'])) ++ _) = _
    simp only [List.map_cons, List.foldr_cons]
    rw [← ih]
    rfl

set_option maxHeartbeats 1600000 in
/-- Claim C8: a loop block over a field bound to a list repeats the body
once per element with the this-token replaced by the element, concatenated
with no separator; over a non-list or absent field the block renders to
nothing.  Elements are restricted to newline-free strings so the final
blank-line collapse is inert. -/
theorem each_block_repeats_per_element (l : List String)
    (h : ∀ s ∈ l, ∀ c ∈ s.data, c ≠ '\n') :
    generateDocumentText
        "\x7b\x7b#each items\x7d\x7d[\x7b\x7bthis\x7d\x7d]\x7b\x7b/each\x7d\x7d"
        [("items", Val.list (l.map Val.s))] =
      (l.map (fun s => "[" ++ s ++ "]")).foldr (fun a b => a ++ b) "" ∧
    (∀ v : Val, (∀ xs, v ≠ Val.list xs) →
      generateDocumentText
          "X\x7b\x7b#each items\x7d\x7d[\x7b\x7bthis\x7d\x7d]\x7b\x7b/each\x7d\x7dY"
          [("items", v)] = "XY") ∧
    generateDocumentText
        "X\x7b\x7b#each items\x7d\x7d[\x7b\x7bthis\x7d\x7d]\x7b\x7b/each\x7d\x7dY"
        [] = "XY" := by
  refine ⟨?_, ?_, rfl⟩
  · have hexp : eachExpand "[[this]]".data (Val.list (l.map Val.s)) =
        (l.map (fun s => '[' :: (s.data ++ [']']))).flatten := by
      simp only [eachExpand, List.map_map]
      rfl
    have hnl : ∀ c ∈ (l.map (fun s => '[' :: (s.data ++ [']']))).flatten,
        c ≠ '\n' := by
      intro c hc
      obtain ⟨piece, hp, hcp⟩ := List.mem_flatten.mp hc
      obtain ⟨s, hs, hps⟩ := List.mem_map.mp hp
      subst hps
      rcases List.mem_cons.mp hcp with h1 | h2
      · subst h1; decide
      · rcases List.mem_append.mp h2 with h3 | h4
        · exact h s hs c h3
        · simp only [List.mem_singleton] at h4
          subst h4; decide
    simp only [generateDocumentText]
    rw [show phFreeAux [("items", Val.list (l.map Val.s))]
        ("\x7b\x7b#each items\x7d\x7d[\x7b\x7bthis\x7d\x7d]\x7b\x7b/each\x7d\x7d".length + 1)
        "\x7b\x7b#each items\x7d\x7d[\x7b\x7bthis\x7d\x7d]\x7b\x7b/each\x7d\x7d".data =
        "[#each items][[this]][/each]".data from rfl]
    rw [show ifPassGen "\x7b\x7b#if".data '\x7d' "\x7d\x7d".data
        "\x7b\x7b/if\x7d\x7d".data [("items", Val.list (l.map Val.s))]
        ("[#each items][[this]][/each]".data.length + 1)
        "[#each items][[this]][/each]".data =
        "[#each items][[this]][/each]".data from rfl]
    rw [show ifPassGen "[#if".data ']' "]".data "[/if]".data
        [("items", Val.list (l.map Val.s))]
        ("[#each items][[this]][/each]".data.length + 1)
        "[#each items][[this]][/each]".data =
        "[#each items][[this]][/each]".data from rfl]
    rw [show eachPassGen "\x7b\x7b#each".data '\x7d' "\x7d\x7d".data
        "\x7b\x7b/each\x7d\x7d".data [("items", Val.list (l.map Val.s))]
        ("[#each items][[this]][/each]".data.length + 1)
        "[#each items][[this]][/each]".data =
        "[#each items][[this]][/each]".data from rfl]
    rw [show eachPassGen "[#each".data ']' "]".data "[/each]".data
        [("items", Val.list (l.map Val.s))]
        ("[#each items][[this]][/each]".data.length + 1)
        "[#each items][[this]][/each]".data =
        eachExpand "[[this]]".data (Val.list (l.map Val.s)) ++ [] from rfl]
    rw [List.append_nil, hexp, collapseAux_no_newline _ _ hnl]
    rw [pyStrip_eq_self _ ?hhead ?hlast]
    · exact bracket_pieces_join l
    case hhead =>
      intro c hc
      cases l with
      | nil => cases hc
      | cons s rest =>
        simp only [List.map_cons, List.flatten, List.cons_append, List.head?] at hc
        cases hc
        rfl
    case hlast =>
      intro c hc
      cases hl : l with
      | nil => rw [hl] at hc; cases hc
      | cons s rest =>
        rw [hl] at hc
        rw [bracket_pieces_last (s :: rest) (by simp)] at hc
        cases hc
        rfl
  · intro v hv
    simp only [generateDocumentText]
    rw [show phFreeAux [("items", v)]
        ("X\x7b\x7b#each items\x7d\x7d[\x7b\x7bthis\x7d\x7d]\x7b\x7b/each\x7d\x7dY".length + 1)
        "X\x7b\x7b#each items\x7d\x7d[\x7b\x7bthis\x7d\x7d]\x7b\x7b/each\x7d\x7dY".data =
        "X[#each items][[this]][/each]Y".data from rfl]
    rw [show ifPassGen "\x7b\x7b#if".data '\x7d' "\x7d\x7d".data
        "\x7b\x7b/if\x7d\x7d".data [("items", v)]
        ("X[#each items][[this]][/each]Y".data.length + 1)
        "X[#each items][[this]][/each]Y".data =
        "X[#each items][[this]][/each]Y".data from rfl]
    rw [show ifPassGen "[#if".data ']' "]".data "[/if]".data [("items", v)]
        ("X[#each items][[this]][/each]Y".data.length + 1)
        "X[#each items][[this]][/each]Y".data =
        "X[#each items][[this]][/each]Y".data from rfl]
    rw [show eachPassGen "\x7b\x7b#each".data '\x7d' "\x7d\x7d".data
        "\x7b\x7b/each\x7d\x7d".data [("items", v)]
        ("X[#each items][[this]][/each]Y".data.length + 1)
        "X[#each items][[this]][/each]Y".data =
        "X[#each items][[this]][/each]Y".data from rfl]
    rw [show eachPassGen "[#each".data ']' "]".data "[/each]".data [("items", v)]
        ("X[#each items][[this]][/each]Y".data.length + 1)
        "X[#each items][[this]][/each]Y".data =
        "X".data ++ eachLookup [("items", v)] "items" "[[this]]".data ++ "Y".data
        from rfl]
    cases v with
    | list xs => exact absurd rfl (hv xs)
    | s str => rfl
    | i z => rfl
    | f q => rfl
    | b bv => rfl
    | null => rfl
    | dict m => rfl

/-- Witness for C8: the claim's own example renders to its expected text. -/
theorem each_block_repeats_per_element_witness :
    (∀ s ∈ ["a", "b"], ∀ c ∈ s.data, c ≠ '\n') ∧
    generateDocumentText
        "\x7b\x7b#each items\x7d\x7d[\x7b\x7bthis\x7d\x7d]\x7b\x7b/each\x7d\x7d"
        [("items", Val.list (["a", "b"].map Val.s))] = "[a][b]" :=
  ⟨by decide,
    ((each_block_repeats_per_element ["a", "b"] (by decide)).1).trans rfl⟩

/-! Claim C9. -/

theorem mem_pyDedupAux (seen : List String) (xs : List String) (x : String) :
    x ∈ pyDedupAux seen xs ↔ x ∈ xs ∧ x ∉ seen := by
  induction xs generalizing seen with
  | nil => simp [pyDedupAux]
  | cons y ys ih =>
    by_cases h : y ∈ seen
    · simp only [pyDedupAux, if_pos h, ih]
      constructor
      · rintro ⟨hx, hs⟩
        exact ⟨List.mem_cons_of_mem _ hx, hs⟩
      · rintro ⟨hx, hs⟩
        rcases List.mem_cons.mp hx with rfl | hx
        · exact absurd h hs
        · exact ⟨hx, hs⟩
    · simp only [pyDedupAux, if_neg h, List.mem_cons, ih]
      constructor
      · rintro (rfl | ⟨hx, hs⟩)
        · exact ⟨Or.inl rfl, h⟩
        · exact ⟨Or.inr hx, fun hc => hs (Or.inr hc)⟩
      · rintro ⟨rfl | hx, hs⟩
        · exact Or.inl rfl
        · by_cases hxy : x = y
          · exact Or.inl hxy
          · exact Or.inr ⟨hx, by simp [List.mem_cons, hxy, hs]⟩

theorem pyDedupAux_nodup (seen : List String) (xs : List String) :
    (pyDedupAux seen xs).Nodup := by
  induction xs generalizing seen with
  | nil => exact List.nodup_nil
  | cons y ys ih =>
    by_cases h : y ∈ seen
    · simpa [pyDedupAux, if_pos h] using ih seen
    · simp only [pyDedupAux, if_neg h]
      refine List.nodup_cons.mpr ⟨fun hy => ?_, ih _⟩
      exact ((mem_pyDedupAux _ _ _).mp hy).2 (List.mem_cons_self _ _)

theorem pyDedup_nodup (xs : List String) : (pyDedup xs).Nodup :=
  pyDedupAux_nodup [] xs

theorem mem_pyDedup (xs : List String) (x : String) :
    x ∈ pyDedup xs ↔ x ∈ xs := by
  simp [pyDedup, mem_pyDedupAux]

/-- One combination-therapy replacement step of the loop in
PatientGenerator._generate_medications. -/
def comboStep (conditions : List String) (acc : List String)
    (combo : List String × List String) : List String :=
  if combo.1.all (fun c => c ∈ conditions) then
    acc.filter (fun m => m ∉ combo.2) ++ combo.2
  else acc

theorem applyCombinations_eq_foldl (conditions : List String) (meds : List String) :
    applyCombinations conditions meds
      = medicationCombinations.foldl (comboStep conditions) meds := rfl

theorem mem_foldl_comboStep (conditions : List String)
    (combos : List (List String × List String)) (acc : List String)
    (m : String) (hm : m ∈ acc) :
    m ∈ combos.foldl (comboStep conditions) acc := by
  induction combos generalizing acc with
  | nil => exact hm
  | cons c rest ih =>
    refine ih _ ?_
    simp only [comboStep]
    split
    · by_cases h2 : m ∈ c.2
      · exact List.mem_append_right _ h2
      · exact List.mem_append_left _ (List.mem_filter.mpr ⟨hm, by simp [h2]⟩)
    · exact hm

theorem combo_meds_mem_foldl (conditions : List String)
    (combos : List (List String × List String)) (acc : List String)
    (cs ms : List String) (hin : (cs, ms) ∈ combos)
    (hsub : cs.all (fun c => c ∈ conditions) = true)
    (m : String) (hm : m ∈ ms) :
    m ∈ combos.foldl (comboStep conditions) acc := by
  induction combos generalizing acc with
  | nil => cases hin
  | cons c rest ih =>
    rcases List.mem_cons.mp hin with heq | htl
    · subst heq
      refine mem_foldl_comboStep conditions rest _ m ?_
      simp only [comboStep, hsub, if_pos]
      exact List.mem_append_right _ hm
    · exact ih _ htl

/-- Claim C9: the medication list carries no duplicate entries, and when a
known combination fires (its full condition set is contained in the
patient conditions) each of its medications appears exactly once: the
individually sampled duplicates are replaced by the combo entries, never
kept alongside them. -/
theorem medication_dedup_and_combos (conditions : List String) (st : RState)
    (cs ms : List String) (m : String)
    (hin : (cs, ms) ∈ medicationCombinations)
    (hsub : cs.all (fun c => c ∈ conditions) = true)
    (hm : m ∈ ms) :
    (generateMedications conditions st).1.Nodup ∧
    (generateMedications conditions st).1.count m = 1 := by
  have hg : (generateMedications conditions st).1
      = pyDedup (applyCombinations conditions (singleConditionMeds conditions st).1) :=
    rfl
  have hnd : (generateMedications conditions st).1.Nodup := by
    rw [hg]; exact pyDedup_nodup _
  refine ⟨hnd, ?_⟩
  have hmem : m ∈ (generateMedications conditions st).1 := by
    rw [hg, mem_pyDedup, applyCombinations_eq_foldl]
    exact combo_meds_mem_foldl conditions medicationCombinations _ cs ms hin hsub m hm
  exact List.count_eq_one_of_mem hnd hmem

/-- Witness for C9: a diabetes and hypertension patient gets metformin
exactly once, whatever the stream. -/
theorem medication_dedup_and_combos_witness :
    (generateMedications ["diabetes", "hypertension"] ⟨fun _ => 500000, 0⟩).1.Nodup ∧
    (generateMedications ["diabetes", "hypertension"]
        ⟨fun _ => 500000, 0⟩).1.count "metformin" = 1 :=
  medication_dedup_and_combos ["diabetes", "hypertension"] ⟨fun _ => 500000, 0⟩
    ["diabetes", "hypertension"] ["metformin", "lisinopril"] "metformin"
    (List.mem_cons_self _ _) (by decide) (List.mem_cons_self _ _)

/-! Claim C10. -/

/-- The document body built in the success branch of generate_document,
before the metadata stamp. -/
def docBody (t : Template) (patient : Patient) (mult : Rat)
    (es : EngineState) (ck : Clock) : List (String × Val) :=
  let vs := generateRandomizedValuesM t patient mult es ck
  let doc0 := processTemplate t vs.1
  match t.report_template with
  | some rt => updSet doc0 "document_text" (.s (generateDocumentText rt vs.1))
  | none => doc0

theorem generateDocumentWith_levels (store : List (String × Template))
    (path : String) (patient : Patient) (mult : Rat) (l1 l2 : String)
    (es : EngineState) (ck : Clock) :
    (∃ e, generateDocumentWith store path patient mult l1 es ck = .error e ∧
          generateDocumentWith store path patient mult l2 es ck = .error e) ∨
    (∃ doc1,
      generateDocumentWith store path patient mult l1 es ck
        = .ok (Val.dict (updSet doc1 "_metadata" (.dict
            [ ("template_path", .s path), ("patient_id", .s patient.id)
            , ("generation_timestamp", .s ck.isoformat)
            , ("randomization_level", .s l1) ]))) ∧
      generateDocumentWith store path patient mult l2 es ck
        = .ok (Val.dict (updSet doc1 "_metadata" (.dict
            [ ("template_path", .s path), ("patient_id", .s patient.id)
            , ("generation_timestamp", .s ck.isoformat)
            , ("randomization_level", .s l2) ])))) := by
  cases hl : dlook store path with
  | none =>
    refine Or.inl ⟨GenError.templateNotFound path, ?_, ?_⟩ <;>
      simp [generateDocumentWith, hl]
  | some t =>
    cases hf : templateFalsy t with
    | true =>
      refine Or.inl ⟨GenError.templateNotFound path, ?_, ?_⟩ <;>
        simp [generateDocumentWith, hl, hf]
    | false =>
      cases hv : (validatePatientConstraints t patient).is_valid with
      | false =>
        refine Or.inl ⟨GenError.validationFailed
            (validatePatientConstraints t patient).errors, ?_, ?_⟩ <;>
          simp [generateDocumentWith, hl, hf, hv]
      | true =>
        refine Or.inr ⟨docBody t patient mult es ck, ?_, ?_⟩ <;>
          simp [generateDocumentWith, docBody, hl, hf, hv]

/-- Claim C10: a randomization level outside conservative, moderate and high
resolves to the silent default multiplier 1, the same multiplier the level
moderate resolves to, so the run succeeds or fails exactly as the moderate
run and produces the same document except for the metadata stamp, where the
unrecognized level string appears verbatim under randomization_level. -/
theorem unknown_level_acts_as_moderate (lvl : String)
    (h : lvl ∉ ["conservative", "moderate", "high"])
    (store : List (String × Template)) (path : String) (patient : Patient)
    (es : EngineState) (ck : Clock) :
    multiplierOf lvl = 1 ∧ multiplierOf "moderate" = 1 ∧
    ((∃ d, generateDocument store path patient lvl es ck = .ok d) ↔
      (∃ d, generateDocument store path patient "moderate" es ck = .ok d)) ∧
    (∀ d, generateDocument store path patient lvl es ck = .ok d →
      ∃ doc1,
        d = Val.dict (updSet doc1 "_metadata" (.dict
            [ ("template_path", .s path), ("patient_id", .s patient.id)
            , ("generation_timestamp", .s ck.isoformat)
            , ("randomization_level", .s lvl) ])) ∧
        generateDocument store path patient "moderate" es ck
          = .ok (Val.dict (updSet doc1 "_metadata" (.dict
            [ ("template_path", .s path), ("patient_id", .s patient.id)
            , ("generation_timestamp", .s ck.isoformat)
            , ("randomization_level", .s "moderate") ])))) := by
  simp only [List.mem_cons, List.not_mem_nil, or_false, not_or] at h
  obtain ⟨h1, h2, h3⟩ := h
  have hm : multiplierOf lvl = 1 := by
    simp [multiplierOf, dlook, Ne.symm h1, Ne.symm h2, Ne.symm h3]
  have hmod : multiplierOf "moderate" = 1 := by
    simp [multiplierOf, dlook]
  have hswap :
      generateDocument store path patient lvl es ck
        = generateDocumentWith store path patient 1 lvl es ck ∧
      generateDocument store path patient "moderate" es ck
        = generateDocumentWith store path patient 1 "moderate" es ck := by
    constructor
    · simp only [generateDocument, hm]
    · simp only [generateDocument, hmod]
  rcases generateDocumentWith_levels store path patient 1 lvl "moderate" es ck with
    ⟨e, he1, he2⟩ | ⟨doc1, ho1, ho2⟩
  · refine ⟨hm, hmod, ?_, ?_⟩
    · rw [hswap.1, hswap.2, he1, he2]
    · intro d hd
      rw [hswap.1, he1] at hd
      cases hd
  · refine ⟨hm, hmod, ?_, ?_⟩
    · rw [hswap.1, hswap.2, ho1, ho2]
      exact ⟨fun _ => ⟨_, rfl⟩, fun _ => ⟨_, rfl⟩⟩
    · intro d hd
      rw [hswap.1, ho1] at hd
      refine ⟨doc1, ?_, ?_⟩
      · exact (Except.ok.injEq _ _ ▸ hd).symm ▸ rfl
      · rw [hswap.2, ho2]

/-- Witness for C10 at the level string extreme and a one-template store. -/
theorem unknown_level_acts_as_moderate_witness :
    ("extreme" ∉ ["conservative", "moderate", "high"]) ∧
    (multiplierOf "extreme" = 1 ∧ multiplierOf "moderate" = 1 ∧
    ((∃ d, generateDocument [("p", emptyTemplate)] "p" patC6 "extreme" esC6 ckC6
        = .ok d) ↔
      (∃ d, generateDocument [("p", emptyTemplate)] "p" patC6 "moderate" esC6 ckC6
        = .ok d)) ∧
    (∀ d, generateDocument [("p", emptyTemplate)] "p" patC6 "extreme" esC6 ckC6
        = .ok d →
      ∃ doc1,
        d = Val.dict (updSet doc1 "_metadata" (.dict
            [ ("template_path", .s "p"), ("patient_id", .s patC6.id)
            , ("generation_timestamp", .s ckC6.isoformat)
            , ("randomization_level", .s "extreme") ])) ∧
        generateDocument [("p", emptyTemplate)] "p" patC6 "moderate" esC6 ckC6
          = .ok (Val.dict (updSet doc1 "_metadata" (.dict
            [ ("template_path", .s "p"), ("patient_id", .s patC6.id)
            , ("generation_timestamp", .s ckC6.isoformat)
            , ("randomization_level", .s "moderate") ]))))) :=
  ⟨by decide,
    unknown_level_acts_as_moderate "extreme" (by decide)
      [("p", emptyTemplate)] "p" patC6 esC6 ckC6⟩

end MedGen
